import Mathlib

/-!
Shallow embedding of the `mysql2-helper-lite` core (`src/index.js`): the
`createDb` facade over a connection pool.  JavaScript dynamic values are
modelled by the inductive type `JVal`; each public operation is a Lean
function threading an explicit state (`St`) holding the trace of statements
issued to the connection provider, the in-memory query cache, and a clock.
The connection provider (`pool.execute`) is modelled as a pure function
parameter inside the context `Ctx`.
-/

namespace M2H

/-- Model of a JavaScript runtime value as it appears in this library:
condition values, payload values and bound parameters. -/
inductive JVal where
  | null
  | undefined
  | bool (b : Bool)
  | int (n : Int)
  | str (s : String)
  | arr (xs : List JVal)
  | obj (fs : List (String × JVal))
  | date (t : Nat)

/-- A result row, as returned by mysql2: an object keyed by column name. -/
abbrev Row := List (String × JVal)

/-- `Array.prototype.join(sep)` / `String.intercalate`. -/
def joinSep (sep : String) : List String → String
  | [] => ""
  | [x] => x
  | x :: y :: xs => x ++ sep ++ joinSep sep (y :: xs)

/-- Number of `?` characters in a string (the placeholder count of a
generated SQL text, provided identifiers are placeholder-free). -/
def countQ (s : String) : Nat := s.data.count '?'

/-- Whitespace predicate used by the model of `String.prototype.trim()`. -/
def isWsC (c : Char) : Bool := c == ' ' || c == '\n' || c == '\t' || c == '\r'

/-- Model of JavaScript `String.prototype.trim()`: strip leading and
trailing whitespace. -/
def trimS (s : String) : String :=
  ⟨((s.data.dropWhile isWsC).reverse.dropWhile isWsC).reverse⟩

/-- Substring test on character lists (JavaScript `String.includes`). -/
def containsList (hay pat : List Char) : Bool :=
  match hay with
  | [] => pat.isEmpty
  | _ :: t => pat.isPrefixOf hay || containsList t pat

/-- JavaScript `hay.includes(pat)` on strings. -/
def strIncludes (hay pat : String) : Bool := containsList hay.data pat.data

/-- Kernel-computable model of JavaScript `String.prototype.toUpperCase()`
on the ASCII strings this library handles. -/
def jsToUpper (s : String) : String := ⟨s.data.map Char.toUpper⟩

/-- Backquote an identifier, as the source's `` \`${x}\` `` interpolation. -/
def bq (s : String) : String := "`" ++ s ++ "`"

mutual

/-- Model of `JSON.stringify` restricted to the shapes this library
serializes (used only to build cache keys). -/
def serializeJVal : JVal → String
  | .null => "null"
  | .undefined => "null"
  | .bool b => if b then "true" else "false"
  | .int n => n.repr
  | .str s => "\"" ++ s ++ "\""
  | .arr xs => "[" ++ joinSep "," (serializeJList xs) ++ "]"
  | .obj fs => "\x7b" ++ joinSep "," (serializeJFields fs) ++ "\x7d"
  | .date t => "\"date:" ++ Nat.repr t ++ "\""

def serializeJList : List JVal → List String
  | [] => []
  | x :: xs => serializeJVal x :: serializeJList xs

def serializeJFields : List (String × JVal) → List String
  | [] => []
  | (k, v) :: xs => ("\"" ++ k ++ "\":" ++ serializeJVal v) :: serializeJFields xs

end

mutual

/-- Model of JavaScript string coercion `` `${v}` `` for the values this
library interpolates into parameter strings (e.g. LIKE wildcards). -/
def jvalToString : JVal → String
  | .null => "null"
  | .undefined => "undefined"
  | .bool b => if b then "true" else "false"
  | .int n => n.repr
  | .str s => s
  | .arr xs => joinSep "," (jvalToStringList xs)
  | .obj _ => "[object Object]"
  | .date t => "date:" ++ Nat.repr t

def jvalToStringList : List JVal → List String
  | [] => []
  | x :: xs => jvalToString x :: jvalToStringList xs

end

/-- JavaScript property access `v.f` returning `undefined` when absent or
when the value is not an object. -/
def jsGet (v : JVal) (f : String) : JVal :=
  match v with
  | .obj fs => match fs.lookup f with
    | some x => x
    | none => .undefined
  | _ => .undefined

/-- Property access on a row object, `undefined` when the key is absent. -/
def rowGet (r : Row) (f : String) : JVal :=
  match r.lookup f with
  | some x => x
  | none => .undefined

/-- JavaScript object spread `{...a, ...b}`: keys of `b` override values of
existing keys of `a` in place, new keys are appended in order. -/
def jsMerge (a b : Row) : Row :=
  match b with
  | [] => a
  | (k, v) :: rest =>
    if a.any (fun kv => kv.1 == k) then
      jsMerge (a.map (fun kv => if kv.1 == k then (k, v) else kv)) rest
    else
      jsMerge (a ++ [(k, v)]) rest

/-- The named failures this library can raise before reaching the provider
(spec taxonomy: ForbiddenTable, UnsupportedJoinType, DangerousStatement). -/
inductive DbErr where
  | forbiddenTable (table : String)
  | unsupportedJoinType (t : String)
  | dangerousStatement (kw : String)
deriving DecidableEq

/-- Results of fallible operations. -/
abbrev Res (α : Type) := Except DbErr α

/-- Observable interaction recorded by the model: a statement issued to the
connection provider, or a registered hook being invoked. -/
inductive Event where
  | stmt (sql : String) (params : List JVal)
  | hookRun (phase : String) (operation : String)

/-- What `pool.execute` yields: rows for reads, metadata for writes. -/
structure ExecResult where
  rows : List Row
  insertId : Nat
  affectedRows : Nat

/-- A cache entry `{ data, timestamp }`. -/
structure CEntry where
  data : List Row
  timestamp : Nat

/-- The construction-time context of a `createDb` instance: options,
whitelist, the connection provider and the (insert-path) hook registry. -/
structure Ctx where
  allowed : List String
  useTimestamps : Bool
  enableQueryCache : Bool
  cacheExpiry : Nat
  enableHooks : Bool
  defLimit : Nat
  defOffset : Nat
  exec : String → List JVal → ExecResult
  beforeInsert : Option (Row → Row)
  afterInsert : Bool

/-- Mutable state threaded through every operation: the trace of events,
the query cache and the current clock (`Date.now()`). -/
structure St where
  trace : List Event
  cache : List (String × CEntry)
  now : Nat

/-- `validateTable`: membership in the whitelist, else the ForbiddenTable
error (`Table '<t>' is not allowed.`). -/
def validateTable (ctx : Ctx) (t : String) : Res Unit :=
  if ctx.allowed.contains t then .ok () else .error (.forbiddenTable t)

/-- `getCacheKey(sql, params)`. -/
def cacheKey (sql : String) (params : List JVal) : String :=
  sql ++ ":" ++ ("[" ++ joinSep "," (serializeJList params) ++ "]")

/-- Map lookup in the cache. -/
def cacheGet (c : List (String × CEntry)) (k : String) : Option CEntry :=
  c.lookup k

/-- Map.delete. -/
def cacheDelete (c : List (String × CEntry)) (k : String) : List (String × CEntry) :=
  c.filter (fun kv => !(kv.1 == k))

/-- Map.set: replace in place when present, append otherwise. -/
def cacheSet (c : List (String × CEntry)) (k : String) (e : CEntry) : List (String × CEntry) :=
  if c.any (fun kv => kv.1 == k) then
    c.map (fun kv => if kv.1 == k then (k, e) else kv)
  else
    c ++ [(k, e)]

/-- `clearCacheForTable(table)`: delete every entry whose key contains the
table name as a substring. -/
def clearTableCache (c : List (String × CEntry)) (table : String) : List (String × CEntry) :=
  c.filter (fun kv => !(strIncludes kv.1 table))

/-- One raw `pool.execute(sql, params)`: records the statement on the trace
and consults the provider. -/
def execStmt (ctx : Ctx) (sql : String) (params : List JVal) (s : St) : ExecResult × St :=
  (ctx.exec sql params, { s with trace := s.trace ++ [Event.stmt sql params] })

/-- The execute-and-maybe-store tail of `db.query`. -/
def queryExec (ctx : Ctx) (sql : String) (params : List JVal) (useCache : Bool) (s : St) :
    List Row × St :=
  let (r, s1) := execStmt ctx sql params s
  if useCache && ctx.enableQueryCache then
    (r.rows, { s1 with cache := cacheSet s1.cache (cacheKey sql params) ⟨r.rows, s.now⟩ })
  else
    (r.rows, s1)

/-- `db.query(sql, params, useCache)`: cache lookup with lazy expiry, then
execution via the provider, storing into the cache when eligible. -/
def query (ctx : Ctx) (sql : String) (params : List JVal) (useCache : Bool) (s : St) :
    List Row × St :=
  let key := cacheKey sql params
  if useCache && ctx.enableQueryCache then
    match cacheGet s.cache key with
    | some e =>
      if s.now - e.timestamp < ctx.cacheExpiry then
        (e.data, s)
      else
        queryExec ctx sql params useCache { s with cache := cacheDelete s.cache key }
    | none => queryExec ctx sql params useCache s
  else
    queryExec ctx sql params useCache s

/-- `db.getOne`: first row of a query, or absence. -/
def getOne (ctx : Ctx) (sql : String) (params : List JVal) (useCache : Bool) (s : St) :
    Option Row × St :=
  let (rows, s1) := query ctx sql params useCache s
  (rows.head?, s1)

/-- `runHook('before','insert', {table, data})`: invoke the registered
callback when hooks are enabled; record the invocation on the trace. -/
def runBeforeInsert (ctx : Ctx) (data : Row) (s : St) : Row × St :=
  if ctx.enableHooks then
    match ctx.beforeInsert with
    | some f => (f data, { s with trace := s.trace ++ [Event.hookRun "before" "insert"] })
    | none => (data, s)
  else
    (data, s)

/-- `runHook('after','insert', ...)`: the result is discarded by `insert`,
so only the invocation is recorded. -/
def runAfterInsert (ctx : Ctx) (s : St) : St :=
  if ctx.enableHooks && ctx.afterInsert then
    { s with trace := s.trace ++ [Event.hookRun "after" "insert"] }
  else
    s

/-- The timestamp columns spread into an insert payload when
`useTimestamps` is on. -/
def insertTimestamps (ctx : Ctx) (now : Nat) : Row :=
  if ctx.useTimestamps then [("created_at", .date now), ("updated_at", .date now)] else []

/-- The timestamp column spread into an update payload. -/
def updateTimestamps (ctx : Ctx) (now : Nat) : Row :=
  if ctx.useTimestamps then [("updated_at", .date now)] else []

/-- The SQL text built by `db.insert`. -/
def insertSql (table : String) (keys : List String) : String :=
  "INSERT INTO " ++ bq table ++ " (" ++ joinSep ", " (keys.map bq) ++ ") VALUES (" ++
    joinSep ", " (keys.map fun _ => "?") ++ ")"

/-- `db.insert(table, data)`: validate, run the before hook, add
timestamps, execute, invalidate the table's cache entries, run the after
hook, return the generated id. -/
def insert (ctx : Ctx) (table : String) (data : Row) (s : St) : Res Nat × St :=
  match validateTable ctx table with
  | .error e => (.error e, s)
  | .ok _ =>
    let (pd, s0) := runBeforeInsert ctx data s
    let finalData := jsMerge pd (insertTimestamps ctx s.now)
    let (r, s1) := execStmt ctx (insertSql table (finalData.map (·.1))) (finalData.map (·.2)) s0
    let s2 := { s1 with cache := clearTableCache s1.cache table }
    (.ok r.insertId, runAfterInsert ctx s2)

/-- The `ON DUPLICATE KEY UPDATE` clause of `upsert`/`bulkUpsert`. -/
def upsertUpdateClause (keys conflictKeys : List String) : String :=
  joinSep ", "
    ((keys.filter (fun k => !(conflictKeys.contains k))).map
      (fun k => bq k ++ " = VALUES(" ++ bq k ++ ")"))

/-- The SQL text built by `db.upsert`. -/
def upsertSql (table : String) (keys conflictKeys : List String) : String :=
  "\n        INSERT INTO " ++ bq table ++ " (" ++ joinSep ", " (keys.map bq) ++ ") \n" ++
    "        VALUES (" ++ joinSep ", " (keys.map fun _ => "?") ++ ")\n" ++
    "        ON DUPLICATE KEY UPDATE " ++ upsertUpdateClause keys conflictKeys ++ "\n      "

/-- `db.upsert(table, data, conflictKeys)`. -/
def upsert (ctx : Ctx) (table : String) (data : Row) (conflictKeys : List String) (s : St) :
    Res Nat × St :=
  match validateTable ctx table with
  | .error e => (.error e, s)
  | .ok _ =>
    let finalData := jsMerge data (insertTimestamps ctx s.now)
    let (r, s1) := execStmt ctx (upsertSql table (finalData.map (·.1)) conflictKeys)
      (finalData.map (·.2)) s
    let s2 := { s1 with cache := clearTableCache s1.cache table }
    (.ok (if r.insertId ≠ 0 then r.insertId else r.affectedRows), s2)

/-- The multi-row placeholder list of `bulkInsert`/`bulkUpsert`. -/
def bulkPlaceholders (keys : List String) (n : Nat) : String :=
  joinSep ", " ((List.range n).map fun _ =>
    "(" ++ joinSep ", " (keys.map fun _ => "?") ++ ")")

/-- `db.bulkInsert(table, dataArray)`: empty input returns immediately
with no statement; otherwise one multi-row INSERT using row 0's keys. -/
def bulkInsert (ctx : Ctx) (table : String) (dataArray : List Row) (s : St) :
    Res (Option Nat) × St :=
  match validateTable ctx table with
  | .error e => (.error e, s)
  | .ok _ =>
    match dataArray with
    | [] => (.ok none, s)
    | r0 :: _ =>
      let keys := r0.map (·.1)
      let values := (dataArray.map (fun r => r.map (·.2))).flatten
      let sql := "INSERT INTO " ++ bq table ++ " (" ++ joinSep ", " (keys.map bq) ++
        ") VALUES " ++ bulkPlaceholders keys dataArray.length
      let (r, s1) := execStmt ctx sql values s
      let s2 := { s1 with cache := clearTableCache s1.cache table }
      (.ok (some r.affectedRows), s2)

/-- `db.bulkUpsert(table, dataArray, conflictKeys)`: empty input returns 0
with no statement. -/
def bulkUpsert (ctx : Ctx) (table : String) (dataArray : List Row) (conflictKeys : List String)
    (s : St) : Res Nat × St :=
  match validateTable ctx table with
  | .error e => (.error e, s)
  | .ok _ =>
    match dataArray with
    | [] => (.ok 0, s)
    | r0 :: _ =>
      let keys := r0.map (·.1)
      let values := (dataArray.map (fun r => r.map (·.2))).flatten
      let sql := "\n        INSERT INTO " ++ bq table ++ " (" ++ joinSep ", " (keys.map bq) ++
        ")\n        VALUES " ++ bulkPlaceholders keys dataArray.length ++
        "\n        ON DUPLICATE KEY UPDATE " ++ upsertUpdateClause keys conflictKeys ++ "\n      "
      let (r, s1) := execStmt ctx sql values s
      let s2 := { s1 with cache := clearTableCache s1.cache table }
      (.ok r.affectedRows, s2)

/-- The SQL text built by `db.updateById`. -/
def updateByIdSql (table : String) (keys : List String) (idField : String) : String :=
  "UPDATE " ++ bq table ++ " SET " ++ joinSep ", " (keys.map fun k => bq k ++ " = ?") ++
    " WHERE " ++ bq idField ++ " = ?"

/-- `db.updateById(table, id, data, idField)`. -/
def updateById (ctx : Ctx) (table : String) (id : JVal) (data : Row) (idField : String)
    (s : St) : Res Unit × St :=
  match validateTable ctx table with
  | .error e => (.error e, s)
  | .ok _ =>
    let finalData := jsMerge data (updateTimestamps ctx s.now)
    let (_, s1) := execStmt ctx (updateByIdSql table (finalData.map (·.1)) idField)
      (finalData.map (·.2) ++ [id]) s
    (.ok (), { s1 with cache := clearTableCache s1.cache table })

/-- The conjunction `` \`k\` = ? AND ... `` over condition keys. -/
def condClause (keys : List String) : String :=
  joinSep " AND " (keys.map fun k => bq k ++ " = ?")

/-- `db.updateWhere(table, conditions, data)`. -/
def updateWhere (ctx : Ctx) (table : String) (conditions : Row) (data : Row) (s : St) :
    Res Nat × St :=
  match validateTable ctx table with
  | .error e => (.error e, s)
  | .ok _ =>
    let finalData := jsMerge data (updateTimestamps ctx s.now)
    let sql := "UPDATE " ++ bq table ++ " SET " ++
      joinSep ", " ((finalData.map (·.1)).map fun k => bq k ++ " = ?") ++
      " WHERE " ++ condClause (conditions.map (·.1))
    let (r, s1) := execStmt ctx sql (finalData.map (·.2) ++ conditions.map (·.2)) s
    (.ok r.affectedRows, { s1 with cache := clearTableCache s1.cache table })

/-- `db.deleteById(table, id, soft, idField)`. -/
def deleteById (ctx : Ctx) (table : String) (id : JVal) (soft : Bool) (idField : String)
    (s : St) : Res Unit × St :=
  match validateTable ctx table with
  | .error e => (.error e, s)
  | .ok _ =>
    let sql := if soft then
        "UPDATE " ++ bq table ++ " SET deleted_at = NOW() WHERE " ++ bq idField ++ " = ?"
      else
        "DELETE FROM " ++ bq table ++ " WHERE " ++ bq idField ++ " = ?"
    let (_, s1) := execStmt ctx sql [id] s
    (.ok (), { s1 with cache := clearTableCache s1.cache table })

/-- `db.deleteWhere(table, conditions, soft)`. -/
def deleteWhere (ctx : Ctx) (table : String) (conditions : Row) (soft : Bool) (s : St) :
    Res Nat × St :=
  match validateTable ctx table with
  | .error e => (.error e, s)
  | .ok _ =>
    let whereClause := condClause (conditions.map (·.1))
    let sql := if soft then
        "UPDATE " ++ bq table ++ " SET deleted_at = NOW() WHERE " ++ whereClause
      else
        "DELETE FROM " ++ bq table ++ " WHERE " ++ whereClause
    let (r, s1) := execStmt ctx sql (conditions.map (·.2)) s
    (.ok r.affectedRows, { s1 with cache := clearTableCache s1.cache table })

/-- The options object of `selectWhere`. -/
structure SWOpts where
  limit : Nat := 0
  offset : Nat := 0
  useCache : Bool := false

/-- The SQL text built by `db.selectWhere` (limit/offset are elided by the
source when falsy; the template is then trimmed). -/
def selectWhereSql (table : String) (keys : List String) (lim off : Nat) : String :=
  trimS ("SELECT * FROM " ++ bq table ++
    (if keys.length ≠ 0 then " WHERE " ++ condClause keys else "") ++ " " ++
    (if lim ≠ 0 then "LIMIT " ++ Nat.repr lim else "") ++ " " ++
    (if off ≠ 0 then "OFFSET " ++ Nat.repr off else ""))

/-- `db.selectWhere(table, conditions, options)`. -/
def selectWhere (ctx : Ctx) (table : String) (conditions : Row) (opts : SWOpts) (s : St) :
    Res (List Row) × St :=
  match validateTable ctx table with
  | .error e => (.error e, s)
  | .ok _ =>
    let (rows, s1) := query ctx
      (selectWhereSql table (conditions.map (·.1)) opts.limit opts.offset)
      (conditions.map (·.2)) opts.useCache s
    (.ok rows, s1)

/-- `db.findOne(table, conditions)`: `selectWhere` with limit 1, first row
or absence. -/
def findOne (ctx : Ctx) (table : String) (conditions : Row) (s : St) :
    Res (Option Row) × St :=
  match selectWhere ctx table conditions { limit := 1 } s with
  | (.error e, s1) => (.error e, s1)
  | (.ok rows, s1) => (.ok rows.head?, s1)

/-- `db.findOneAndUpdate(table, conditions, data)`: absence short-circuits
before any mutating statement. -/
def findOneAndUpdate (ctx : Ctx) (table : String) (conditions : Row) (data : Row) (s : St) :
    Res (Option Row) × St :=
  match findOne ctx table conditions s with
  | (.error e, s1) => (.error e, s1)
  | (.ok none, s1) => (.ok none, s1)
  | (.ok (some existing), s1) =>
    match updateById ctx table (rowGet existing "id") data "id" s1 with
    | (.error e, s2) => (.error e, s2)
    | (.ok _, s2) =>
      match findOne ctx table [("id", rowGet existing "id")] s2 with
      | (.error e, s3) => (.error e, s3)
      | (.ok r, s3) => (.ok r, s3)

/-- `db.findOneAndDelete(table, conditions, soft)`: absence short-circuits
before any mutating statement. -/
def findOneAndDelete (ctx : Ctx) (table : String) (conditions : Row) (soft : Bool) (s : St) :
    Res (Option Row) × St :=
  match findOne ctx table conditions s with
  | (.error e, s1) => (.error e, s1)
  | (.ok none, s1) => (.ok none, s1)
  | (.ok (some existing), s1) =>
    match deleteById ctx table (rowGet existing "id") soft "id" s1 with
    | (.error e, s2) => (.error e, s2)
    | (.ok _, s2) => (.ok (some existing), s2)

/-- One `ORDER BY` item of `select`: a raw string or `{column, direction}`. -/
inductive OrderItem where
  | raw (s : String)
  | col (column : String) (direction : Option String)

/-- The rendering of one `ORDER BY` item in `select`. -/
def orderItemStr : OrderItem → String
  | .raw s => s
  | .col c d => bq c ++ " " ++ d.getD "ASC"

/-- The options object of `select` (absent limit/offset fall back to the
instance's `defaultPagination`). -/
structure SelOpts where
  columns : List String := ["*"]
  whereConds : Row := []
  whereRaw : String := ""
  orderBy : List OrderItem := []
  groupBy : List String := []
  having : String := ""
  limit : Option Nat := none
  offset : Option Nat := none
  useCache : Bool := false

/-- The SQL text built by `db.select`. -/
def selectSql (ctx : Ctx) (table : String) (o : SelOpts) : String :=
  "SELECT " ++ joinSep ", " o.columns ++ " FROM " ++ bq table ++
  (if o.whereConds.length ≠ 0 then " WHERE " ++ condClause (o.whereConds.map (·.1))
   else if o.whereRaw ≠ "" then " WHERE " ++ o.whereRaw else "") ++
  (if o.groupBy.length ≠ 0 then " GROUP BY " ++ joinSep ", " o.groupBy else "") ++
  (if o.having ≠ "" then " HAVING " ++ o.having else "") ++
  (if o.orderBy.length ≠ 0 then " ORDER BY " ++ joinSep ", " (o.orderBy.map orderItemStr)
   else "") ++
  (if o.limit.getD ctx.defLimit ≠ 0 then " LIMIT " ++ Nat.repr (o.limit.getD ctx.defLimit)
   else "") ++
  (if o.offset.getD ctx.defOffset ≠ 0 then " OFFSET " ++ Nat.repr (o.offset.getD ctx.defOffset)
   else "")

/-- `db.select(table, options)`. -/
def select (ctx : Ctx) (table : String) (o : SelOpts) (s : St) : Res (List Row) × St :=
  match validateTable ctx table with
  | .error e => (.error e, s)
  | .ok _ =>
    let (rows, s1) := query ctx (selectSql ctx table o) (o.whereConds.map (·.2)) o.useCache s
    (.ok rows, s1)

/-- The SQL text built by `db.count`. -/
def countSql (table : String) (keys : List String) : String :=
  "SELECT COUNT(*) as count FROM " ++ bq table ++
    (if keys.length ≠ 0 then " WHERE " ++ condClause keys else "")

/-- Extraction of `result.count` as a natural number (the model reads a
missing or non-numeric field as 0). -/
def jvalToNat : JVal → Nat
  | .int n => n.toNat
  | _ => 0

/-- `db.count(table, conditions)`. -/
def count (ctx : Ctx) (table : String) (conditions : Row) (s : St) : Res Nat × St :=
  match validateTable ctx table with
  | .error e => (.error e, s)
  | .ok _ =>
    let (r, s1) := getOne ctx (countSql table (conditions.map (·.1)))
      (conditions.map (·.2)) false s
    match r with
    | some row => (.ok (jvalToNat (rowGet row "count")), s1)
    | none => (.ok 0, s1)

/-- `Math.ceil(total / perPage)` on naturals (`perPage > 0`). -/
def natCeilDiv (total perPage : Nat) : Nat := (total + perPage - 1) / perPage

/-- The pagination report of `paginate`. -/
structure PageResult where
  data : List Row
  total : Nat
  page : Nat
  perPage : Nat
  totalPages : Nat
  hasNext : Bool
  hasPrev : Bool

/-- `db.paginate(table, {page, perPage, where, orderBy})`: a COUNT query
under the WHERE conditions, then a page-sized SELECT, then the derived
pagination fields. -/
def paginate (ctx : Ctx) (table : String) (page perPage : Nat) (whereC : Row)
    (orderBy : List OrderItem) (s : St) : Res PageResult × St :=
  let offset := (page - 1) * perPage
  match count ctx table whereC s with
  | (.error e, s1) => (.error e, s1)
  | (.ok total, s1) =>
    match select ctx table
      { whereConds := whereC, orderBy := orderBy, limit := some perPage,
        offset := some offset } s1 with
    | (.error e, s2) => (.error e, s2)
    | (.ok rows, s2) =>
      (.ok { data := rows, total := total, page := page, perPage := perPage,
             totalPages := natCeilDiv total perPage,
             hasNext := decide (page < natCeilDiv total perPage),
             hasPrev := decide (1 < page) }, s2)

/-- `db.getByIds(table, ids, idField)`: empty input returns `[]` with no
statement. -/
def getByIds (ctx : Ctx) (table : String) (ids : List JVal) (idField : String) (s : St) :
    Res (List Row) × St :=
  match validateTable ctx table with
  | .error e => (.error e, s)
  | .ok _ =>
    match ids with
    | [] => (.ok [], s)
    | _ =>
      let sql := "SELECT * FROM " ++ bq table ++ " WHERE " ++ bq idField ++ " IN (" ++
        joinSep ", " (ids.map fun _ => "?") ++ ")"
      let (rows, s1) := query ctx sql ids false s
      (.ok rows, s1)

/-- `db.whereIn(table, column, values)`: empty input returns `[]` with no
statement. -/
def whereIn (ctx : Ctx) (table : String) (column : String) (values : List JVal) (s : St) :
    Res (List Row) × St :=
  match validateTable ctx table with
  | .error e => (.error e, s)
  | .ok _ =>
    match values with
    | [] => (.ok [], s)
    | _ =>
      let sql := "SELECT * FROM " ++ bq table ++ " WHERE " ++ bq column ++ " IN (" ++
        joinSep ", " (values.map fun _ => "?") ++ ")"
      let (rows, s1) := query ctx sql values false s
      (.ok rows, s1)

/-- `db.whereNotIn(table, column, values)`: empty input returns `[]` with
no statement. -/
def whereNotIn (ctx : Ctx) (table : String) (column : String) (values : List JVal) (s : St) :
    Res (List Row) × St :=
  match validateTable ctx table with
  | .error e => (.error e, s)
  | .ok _ =>
    match values with
    | [] => (.ok [], s)
    | _ =>
      let sql := "SELECT * FROM " ++ bq table ++ " WHERE " ++ bq column ++ " NOT IN (" ++
        joinSep ", " (values.map fun _ => "?") ++ ")"
      let (rows, s1) := query ctx sql values false s
      (.ok rows, s1)

/-- One iteration of `batchUpdate`'s loop: destructure `id`, add the
timestamp, issue the UPDATE on the dedicated connection. -/
def batchUpdateStep (ctx : Ctx) (table : String) (idField : String) (upd : Row) (s : St) : St :=
  let id := rowGet upd "id"
  let data := upd.filter (fun kv => !(kv.1 == "id"))
  let finalData := jsMerge data (updateTimestamps ctx s.now)
  (execStmt ctx (updateByIdSql table (finalData.map (·.1)) idField)
    (finalData.map (·.2) ++ [id]) s).2

/-- `db.batchUpdate(table, updates, idField)`: empty input returns 0 with
no statement; otherwise one UPDATE per entry inside a transaction (the
model records the statements; transaction bracketing on the dedicated
connection is modelled separately). -/
def batchUpdate (ctx : Ctx) (table : String) (updates : List Row) (idField : String) (s : St) :
    Res Nat × St :=
  match validateTable ctx table with
  | .error e => (.error e, s)
  | .ok _ =>
    match updates with
    | [] => (.ok 0, s)
    | _ =>
      let s1 := updates.foldl (fun st u => batchUpdateStep ctx table idField u st) s
      (.ok updates.length, { s1 with cache := clearTableCache s1.cache table })

/-- `db.batchDelete(table, ids, soft, idField)`: empty input returns 0
with no statement. -/
def batchDelete (ctx : Ctx) (table : String) (ids : List JVal) (soft : Bool) (idField : String)
    (s : St) : Res Nat × St :=
  match validateTable ctx table with
  | .error e => (.error e, s)
  | .ok _ =>
    match ids with
    | [] => (.ok 0, s)
    | _ =>
      let ph := joinSep ", " (ids.map fun _ => "?")
      let sql := if soft then
          "UPDATE " ++ bq table ++ " SET deleted_at = NOW() WHERE " ++ bq idField ++
            " IN (" ++ ph ++ ")"
        else
          "DELETE FROM " ++ bq table ++ " WHERE " ++ bq idField ++ " IN (" ++ ph ++ ")"
      let (r, s1) := execStmt ctx sql ids s
      (.ok r.affectedRows, { s1 with cache := clearTableCache s1.cache table })

/-- `db.truncate(table)`. -/
def truncate (ctx : Ctx) (table : String) (s : St) : Res Bool × St :=
  match validateTable ctx table with
  | .error e => (.error e, s)
  | .ok _ =>
    let (_, s1) := query ctx "SET FOREIGN_KEY_CHECKS = 0" [] false s
    let (_, s2) := query ctx ("TRUNCATE TABLE " ++ bq table) [] false s1
    let (_, s3) := query ctx "SET FOREIGN_KEY_CHECKS = 1" [] false s2
    (.ok true, { s3 with cache := clearTableCache s3.cache table })

/-- `db.increment(table, id, field, amount, idField)`: the source clears
the table's cache entries before issuing the UPDATE. -/
def increment (ctx : Ctx) (table : String) (id : JVal) (field : String) (amount : JVal)
    (idField : String) (s : St) : Res (List Row) × St :=
  match validateTable ctx table with
  | .error e => (.error e, s)
  | .ok _ =>
    let sql := "UPDATE " ++ bq table ++ " SET " ++ bq field ++ " = " ++ bq field ++
      " + ? WHERE " ++ bq idField ++ " = ?"
    let s1 := { s with cache := clearTableCache s.cache table }
    let (rows, s2) := query ctx sql [amount, id] false s1
    (.ok rows, s2)

/-- `db.decrement(table, id, field, amount, idField)`. -/
def decrement (ctx : Ctx) (table : String) (id : JVal) (field : String) (amount : JVal)
    (idField : String) (s : St) : Res (List Row) × St :=
  match validateTable ctx table with
  | .error e => (.error e, s)
  | .ok _ =>
    let sql := "UPDATE " ++ bq table ++ " SET " ++ bq field ++ " = " ++ bq field ++
      " - ? WHERE " ++ bq idField ++ " = ?"
    let s1 := { s with cache := clearTableCache s.cache table }
    let (rows, s2) := query ctx sql [amount, id] false s1
    (.ok rows, s2)

/-- One entry of an `advancedSearch` criteria map: a literal value
(equality) or an `{operator, value}` filter descriptor. -/
inductive CondVal where
  | lit (v : JVal)
  | op (operator : String) (value : JVal)

/-- The dispatch of `advancedSearch` on one criteria entry: the produced
condition fragment and the parameters it pushes, in order. -/
def buildCond (field : String) (c : CondVal) : String × List JVal :=
  match c with
  | .lit v => (bq field ++ " = ?", [v])
  | .op operator value =>
    if jsToUpper operator == "LIKE" then
      (bq field ++ " LIKE ?", [.str ("%" ++ jvalToString value ++ "%")])
    else if jsToUpper operator == "IN" then
      match value with
      | .arr xs => (bq field ++ " IN (" ++ joinSep ", " (xs.map fun _ => "?") ++ ")", xs)
      | v => (bq field ++ " IN (?)", [v])
    else if jsToUpper operator == "BETWEEN" then
      (bq field ++ " BETWEEN ? AND ?", [jsGet value "min", jsGet value "max"])
    else if jsToUpper operator == "IS NULL" then
      (bq field ++ " IS NULL", [])
    else if jsToUpper operator == "IS NOT NULL" then
      (bq field ++ " IS NOT NULL", [])
    else
      (bq field ++ " " ++ operator ++ " ?", [value])

/-- The condition fragments of an `advancedSearch` criteria map. -/
def advConds (criteria : List (String × CondVal)) : List String :=
  criteria.map (fun fc => (buildCond fc.1 fc.2).1)

/-- The bound parameters of an `advancedSearch` criteria map. -/
def advValues (criteria : List (String × CondVal)) : List JVal :=
  (criteria.map (fun fc => (buildCond fc.1 fc.2).2)).flatten

/-- The `ORDER BY` rendering of `advancedSearch`. -/
def advOrderItem (column : String) (direction : Option String) : String :=
  bq column ++ " " ++ direction.getD "ASC"

/-- The SQL text built by `db.advancedSearch`. -/
def advancedSearchSql (table : String) (criteria : List (String × CondVal))
    (orderBy : List (String × Option String)) (lim off : Nat) : String :=
  trimS ("\n        SELECT * FROM " ++ bq table ++ "\n        " ++
    (if (advConds criteria).length ≠ 0 then
      "WHERE " ++ joinSep " AND " (advConds criteria) else "") ++ "\n        " ++
    (if orderBy.length ≠ 0 then
      "ORDER BY " ++ joinSep ", " (orderBy.map fun o => advOrderItem o.1 o.2) else "") ++
    "\n        LIMIT " ++ Nat.repr lim ++ " OFFSET " ++ Nat.repr off ++ "\n      ")

/-- `db.advancedSearch(table, criteria, options)`. -/
def advancedSearch (ctx : Ctx) (table : String) (criteria : List (String × CondVal))
    (orderBy : List (String × Option String)) (lim off : Nat) (s : St) :
    Res (List Row) × St :=
  match validateTable ctx table with
  | .error e => (.error e, s)
  | .ok _ =>
    let (rows, s1) := query ctx (advancedSearchSql table criteria orderBy lim off)
      (advValues criteria) false s
    (.ok rows, s1)

/-- The backquoted column list of `fullTextSearch`. -/
def ftsColumnsStr (columns : List String) : String :=
  joinSep ", " (columns.map bq)

/-- The SQL text built by `db.fullTextSearch` (not trimmed by the source). -/
def fullTextSearchSql (table : String) (columns : List String) (mode : String)
    (lim minScore : Nat) : String :=
  let cs := ftsColumnsStr columns
  "\n        SELECT *, MATCH(" ++ cs ++ ") AGAINST(? IN " ++ mode ++
    " MODE) as relevance\n        FROM " ++ bq table ++
    "\n        WHERE MATCH(" ++ cs ++ ") AGAINST(? IN " ++ mode ++ " MODE)\n        " ++
    (if 0 < minScore then
      "AND MATCH(" ++ cs ++ ") AGAINST(? IN " ++ mode ++ " MODE) > " ++ Nat.repr minScore
     else "") ++
    "\n        ORDER BY relevance DESC\n        LIMIT " ++ Nat.repr lim ++ "\n      "

/-- The parameter list of `db.fullTextSearch`: the search term twice, or
three times when a minimum score is requested. -/
def fullTextSearchParams (searchTerm : String) (minScore : Nat) : List JVal :=
  if 0 < minScore then [.str searchTerm, .str searchTerm, .str searchTerm]
  else [.str searchTerm, .str searchTerm]

/-- `db.fullTextSearch(table, columns, searchTerm, options)`. -/
def fullTextSearch (ctx : Ctx) (table : String) (columns : List String) (searchTerm : String)
    (mode : String) (lim minScore : Nat) (s : St) : Res (List Row) × St :=
  match validateTable ctx table with
  | .error e => (.error e, s)
  | .ok _ =>
    let (rows, s1) := query ctx (fullTextSearchSql table columns mode lim minScore)
      (fullTextSearchParams searchTerm minScore) false s
    (.ok rows, s1)

/-- One `{func, column, alias}` aggregate descriptor. -/
structure AggFn where
  func : String
  column : String
  aggAlias : Option String

/-- The SQL text built by `db.aggregate`. -/
def aggregateSql (table : String) (functions : List AggFn) (groupBy : List String)
    (whereKeys : List String) (having : String) : String :=
  let funcClauses := joinSep ", " (functions.map fun f =>
    f.func ++ "(" ++ (if f.column == "*" then "*" else bq f.column) ++ ") as " ++
      f.aggAlias.getD f.column)
  let whereClause := if whereKeys.length ≠ 0 then "WHERE " ++ condClause whereKeys else ""
  let groupClause := if groupBy.length ≠ 0 then
      "GROUP BY " ++ joinSep ", " (groupBy.map bq) else ""
  let havingClause := if having ≠ "" then "HAVING " ++ having else ""
  trimS ("\n        SELECT " ++ joinSep ", " (groupBy.map bq) ++
    (if groupBy.length ≠ 0 then ", " else "") ++ funcClauses ++
    "\n        FROM " ++ bq table ++ "\n        " ++ whereClause ++ "\n        " ++
    groupClause ++ "\n        " ++ havingClause ++ "\n      ")

/-- `db.aggregate(table, options)`. -/
def aggregate (ctx : Ctx) (table : String) (functions : List AggFn) (groupBy : List String)
    (whereC : Row) (having : String) (s : St) : Res (List Row) × St :=
  match validateTable ctx table with
  | .error e => (.error e, s)
  | .ok _ =>
    let (rows, s1) := query ctx
      (aggregateSql table functions groupBy (whereC.map (·.1)) having)
      (whereC.map (·.2)) false s
    (.ok rows, s1)

/-- The SQL text built by `db.join`. -/
def joinSql (baseTable joinTable baseKey joinKey : String) (condKeys : List String)
    (columns : List String) (joinType : String) : String :=
  trimS ("\n        SELECT " ++ joinSep ", " columns ++
    "\n        FROM " ++ bq baseTable ++
    "\n        " ++ joinType ++ " JOIN " ++ bq joinTable ++ " ON " ++ bq baseTable ++ "." ++
      bq baseKey ++ " = " ++ bq joinTable ++ "." ++ bq joinKey ++ "\n        " ++
    (if condKeys.length ≠ 0 then
      "WHERE " ++ joinSep " AND " (condKeys.map fun k => bq baseTable ++ "." ++ bq k ++ " = ?")
     else "") ++ "\n      ")

/-- `db.join({baseTable, joinTable, baseKey, joinKey, conditions, columns,
joinType})`: both tables are validated before anything is built. -/
def join (ctx : Ctx) (baseTable joinTable baseKey joinKey : String) (conditions : Row)
    (columns : List String) (joinType : String) (s : St) : Res (List Row) × St :=
  match validateTable ctx baseTable with
  | .error e => (.error e, s)
  | .ok _ =>
    match validateTable ctx joinTable with
    | .error e => (.error e, s)
    | .ok _ =>
      let (rows, s1) := query ctx
        (joinSql baseTable joinTable baseKey joinKey (conditions.map (·.1)) columns joinType)
        (conditions.map (·.2)) false s
      (.ok rows, s1)

/-- One join descriptor of `multiJoin` (`alias` defaults to the table,
`type` defaults to INNER). -/
structure JoinDesc where
  table : String
  jalias : Option String := none
  jtype : Option String := none
  baseColumn : String
  joinColumn : String

/-- `j.type?.toUpperCase() === 'FULL'`. -/
def isFullJoin (j : JoinDesc) : Bool :=
  match j.jtype with
  | some t => jsToUpper t == "FULL"
  | none => false

/-- The effective (defaulted, upper-cased) join type of a descriptor. -/
def joinTypeOf (j : JoinDesc) : String := jsToUpper (j.jtype.getD "INNER")

/-- The join types `multiJoin` accepts. -/
def validJoinTypes : List String := ["INNER", "LEFT", "RIGHT", "FULL"]

/-- Validation of every join table of `multiJoin`, in order. -/
def validateJoinTables (ctx : Ctx) : List JoinDesc → Res Unit
  | [] => .ok ()
  | j :: rest =>
    match validateTable ctx j.table with
    | .error e => .error e
    | .ok _ => validateJoinTables ctx rest

/-- The per-descriptor join clause of `multiJoin` (FULL descriptors are
dropped from the combined clause list). -/
def multiJoinClause (baseAlias : String) (j : JoinDesc) : String :=
  joinTypeOf j ++ " JOIN " ++ bq j.table ++ " AS " ++ bq (j.jalias.getD j.table) ++
    " ON " ++ bq baseAlias ++ "." ++ bq j.baseColumn ++ " = " ++
    bq (j.jalias.getD j.table) ++ "." ++ bq j.joinColumn

/-- The `WHERE` clause of `multiJoin`, qualified by the base alias. -/
def multiJoinWhere (baseAlias : String) (keys : List String) : String :=
  if keys.length ≠ 0 then
    "WHERE " ++ joinSep " AND " (keys.map fun k => bq baseAlias ++ "." ++ bq k ++ " = ?")
  else ""

/-- The left half of the emulated FULL OUTER statement. -/
def fullLeftQuery (baseTable baseAlias : String) (fj : JoinDesc) (columns : List String)
    (whereClause : String) : String :=
  "\n          SELECT " ++ joinSep ", " columns ++
  "\n          FROM " ++ bq baseTable ++ " AS " ++ bq baseAlias ++
  "\n          LEFT JOIN " ++ bq fj.table ++ " AS " ++ bq (fj.jalias.getD fj.table) ++
    " ON " ++ bq baseAlias ++ "." ++ bq fj.baseColumn ++ " = " ++
    bq (fj.jalias.getD fj.table) ++ "." ++ bq fj.joinColumn ++
  "\n          " ++ whereClause ++ "\n        "

/-- The mirrored right half of the emulated FULL OUTER statement: base and
join tables swapped, joined again with LEFT JOIN. -/
def fullRightQuery (baseTable baseAlias : String) (fj : JoinDesc) (columns : List String)
    (whereClause : String) : String :=
  "\n          SELECT " ++ joinSep ", " columns ++
  "\n          FROM " ++ bq fj.table ++ " AS " ++ bq (fj.jalias.getD fj.table) ++
  "\n          LEFT JOIN " ++ bq baseTable ++ " AS " ++ bq baseAlias ++
    " ON " ++ bq (fj.jalias.getD fj.table) ++ "." ++ bq fj.joinColumn ++ " = " ++
    bq baseAlias ++ "." ++ bq fj.baseColumn ++
  "\n          " ++ whereClause ++ "\n        "

/-- The combined UNION statement emulating FULL OUTER for one descriptor. -/
def fullUnionSql (baseTable baseAlias : String) (fj : JoinDesc) (columns : List String)
    (whereClause : String) : String :=
  "(" ++ fullLeftQuery baseTable baseAlias fj columns whereClause ++ ") UNION (" ++
    fullRightQuery baseTable baseAlias fj columns whereClause ++ ")"

/-- `db.multiJoin({baseTable, baseAlias, joins, conditions, columns})`. -/
def multiJoin (ctx : Ctx) (baseTable : String) (baseAliasOpt : Option String)
    (joins : List JoinDesc) (conditions : Row) (columns : List String) (s : St) :
    Res (List Row) × St :=
  let baseAlias := baseAliasOpt.getD baseTable
  match validateTable ctx baseTable with
  | .error e => (.error e, s)
  | .ok _ =>
    match validateJoinTables ctx joins with
    | .error e => (.error e, s)
    | .ok _ =>
      let values := conditions.map (·.2)
      let whereClause := multiJoinWhere baseAlias (conditions.map (·.1))
      match joins.find? (fun j => !(validJoinTypes.contains (joinTypeOf j))) with
      | some j => (.error (.unsupportedJoinType (joinTypeOf j)), s)
      | none =>
        match joins.filter isFullJoin with
        | fj :: _ =>
          let sql := fullUnionSql baseTable baseAlias fj columns whereClause
          let (rows, s1) := query ctx sql (values ++ values) false s
          (.ok rows, s1)
        | [] =>
          let joinClauses :=
            joinSep "\n" ((joins.filter (fun j => !(isFullJoin j))).map
              (multiJoinClause baseAlias))
          let sql := trimS ("\n        SELECT " ++ joinSep ", " columns ++
            "\n        FROM " ++ bq baseTable ++ " AS " ++ bq baseAlias ++
            "\n        " ++ joinClauses ++ "\n        " ++ whereClause ++ "\n      ")
          let (rows, s1) := query ctx sql values false s
          (.ok rows, s1)

/-- The blocked-keyword list of `db.raw`, in source order. -/
def dangerousKeywords : List String := ["DROP", "TRUNCATE", "DELETE", "ALTER", "CREATE"]

/-- `db.raw(sql, params)`: scan the upper-cased text for blocked keywords
and fail before execution on the first hit, else delegate to `query`. -/
def raw (ctx : Ctx) (sql : String) (params : List JVal) (s : St) : Res (List Row) × St :=
  match dangerousKeywords.find? (fun kw => strIncludes (jsToUpper sql) kw) with
  | some kw => (.error (.dangerousStatement kw), s)
  | none =>
    let (rows, s1) := query ctx sql params false s
    (.ok rows, s1)

/-- The observable actions on the dedicated connection of `transaction`. -/
inductive TxEvent where
  | acquire
  | txBegin
  | commit
  | rollback
  | release
  | stmt (sql : String) (params : List JVal)

/-- Recognizer for the release event. -/
def isRelease : TxEvent → Bool
  | .release => true
  | _ => false

/-- Recognizer for the acquire event. -/
def isAcquire : TxEvent → Bool
  | .acquire => true
  | _ => false

/-- An abstract transaction error (the body's thrown error, or a failure
of a connection primitive). -/
abbrev TxErr := String

/-- Failure switches of the dedicated connection's primitives. -/
structure TxConn where
  beginFails : Option TxErr := none
  commitFails : Option TxErr := none
  rollbackFails : Option TxErr := none

/-- The statements a transaction body issues on the dedicated connection,
as trace events. -/
def bodyEvents (bodyStmts : List (String × List JVal)) : List TxEvent :=
  bodyStmts.map (fun p => TxEvent.stmt p.1 p.2)

/-- `db.transaction(callback)`: acquire a connection, begin, run the body,
commit on success / rollback-and-rethrow on failure, release in `finally`.
The body is abstracted by its outcome and the statements it issued. -/
def transaction (α : Type) (conn : TxConn) (bodyRes : Except TxErr α)
    (bodyStmts : List (String × List JVal)) : Except TxErr α × List TxEvent :=
  let evs := bodyEvents bodyStmts
  let inner : Except TxErr α × List TxEvent :=
    match conn.beginFails with
    | some e =>
      match conn.rollbackFails with
      | some e2 => (.error e2, [.acquire, .txBegin, .rollback])
      | none => (.error e, [.acquire, .txBegin, .rollback])
    | none =>
      match bodyRes with
      | .error e =>
        match conn.rollbackFails with
        | some e2 => (.error e2, [.acquire, .txBegin] ++ evs ++ [.rollback])
        | none => (.error e, [.acquire, .txBegin] ++ evs ++ [.rollback])
      | .ok a =>
        match conn.commitFails with
        | some e =>
          match conn.rollbackFails with
          | some e2 => (.error e2, [.acquire, .txBegin] ++ evs ++ [.commit, .rollback])
          | none => (.error e, [.acquire, .txBegin] ++ evs ++ [.commit, .rollback])
        | none => (.ok a, [.acquire, .txBegin] ++ evs ++ [.commit])
  (inner.1, inner.2 ++ [.release])

/-! ### Helper lemmas: placeholder counting -/

theorem countQ_append (a b : String) : countQ (a ++ b) = countQ a + countQ b := by
  cases a with
  | mk da =>
    cases b with
    | mk db =>
      show (String.mk (da ++ db)).data.count _ = _
      simp [countQ, List.count_append]

theorem countQ_mk (l : List Char) : countQ (String.mk l) = l.count '?' := rfl

theorem count_dropWhile_of_neg {p : Char → Bool} {c : Char} (h : p c = false)
    (l : List Char) : (l.dropWhile p).count c = l.count c := by
  induction l with
  | nil => simp
  | cons a t ih =>
    by_cases ha : p a = true
    · rw [List.dropWhile_cons_of_pos ha, ih]
      have hac : (a == c) = false := by
        by_contra hx
        simp only [Bool.not_eq_false, beq_iff_eq] at hx
        rw [hx, h] at ha
        exact Bool.false_ne_true ha
      simp [List.count_cons, hac]
    · rw [List.dropWhile_cons_of_neg ha]

theorem countQ_trimS (s : String) : countQ (trimS s) = countQ s := by
  cases s with
  | mk l =>
    have h : isWsC '?' = false := by decide
    simp [trimS, countQ_mk, List.count_reverse, count_dropWhile_of_neg h, countQ]

theorem countQ_bq (s : String) : countQ (bq s) = countQ s := by
  have h : bq s = "`" ++ s ++ "`" := rfl
  have h1 : countQ "`" = 0 := by decide
  rw [h, countQ_append, countQ_append, h1]
  omega

theorem countQ_joinSep (sep : String) (hsep : countQ sep = 0) (l : List String) :
    countQ (joinSep sep l) = (l.map countQ).sum := by
  induction l with
  | nil => simp [joinSep, countQ]
  | cons x xs ih =>
    cases xs with
    | nil => simp [joinSep]
    | cons y ys =>
      show countQ (x ++ sep ++ joinSep sep (y :: ys)) = _
      rw [countQ_append, countQ_append, hsep, ih]
      simp

theorem countQ_natRepr (n : Nat) : countQ (Nat.repr n) = 0 := by
  have hd : ∀ m : Nat, Nat.digitChar m ≠ '?' := by
    intro m h
    by_cases h16 : m < 16
    · interval_cases m <;> exact absurd h (by decide)
    · have hstar : Nat.digitChar m = '*' := by
        unfold Nat.digitChar
        repeat rw [if_neg (by omega)]
      rw [hstar] at h
      exact absurd h (by decide)
  have hcore : ∀ (fuel n : Nat) (acc : List Char),
      (Nat.toDigitsCore 10 fuel n acc).count '?' = acc.count '?' := by
    intro fuel
    induction fuel with
    | zero => intro n acc; rfl
    | succ f ih =>
      intro n acc
      have hne : (Nat.digitChar (n % 10) == '?') = false := by
        simp only [beq_eq_false_iff_ne]
        exact hd _
      show (if n / 10 = 0 then Nat.digitChar (n % 10) :: acc
        else Nat.toDigitsCore 10 f (n / 10) (Nat.digitChar (n % 10) :: acc)).count '?'
          = acc.count '?'
      split
      · simp [List.count_cons, hne]
      · rw [ih]
        simp [List.count_cons, hne]
  show (Nat.toDigits 10 n).asString.data.count '?' = 0
  simp [Nat.toDigits, List.asString, hcore]

theorem countQ_placeholders {α : Type} (l : List α) :
    countQ (joinSep ", " (l.map fun _ => "?")) = l.length := by
  rw [countQ_joinSep ", " (by decide)]
  have h1 : countQ "?" = 1 := by decide
  induction l with
  | nil => simp
  | cons a t ih =>
    simp only [List.map_cons, List.sum_cons, h1, List.length_cons]
    omega

theorem countQ_condClause (keys : List String) (h : ∀ k ∈ keys, countQ k = 0) :
    countQ (condClause keys) = keys.length := by
  unfold condClause
  rw [countQ_joinSep " AND " (by decide)]
  induction keys with
  | nil => simp
  | cons k ks ih =>
    simp only [List.map_cons, List.sum_cons, List.length_cons]
    rw [ih (fun x hx => h x (List.mem_cons_of_mem _ hx))]
    have hk : countQ (bq k ++ " = ?") = 1 := by
      rw [countQ_append, countQ_bq, h k (List.mem_cons_self _ _)]
      decide
    omega

/-! ### Concrete instances used by witnesses -/

/-- A concrete provider that returns no rows, insert id 1 and one affected
row, for witness evaluation. -/
def provider0 : String → List JVal → ExecResult := fun _ _ => ⟨[], 1, 1⟩

/-- A concrete instance whitelisting only `users`, with cache enabled. -/
def ctx0 : Ctx :=
  { allowed := ["users"], useTimestamps := true, enableQueryCache := true,
    cacheExpiry := 60000, enableHooks := true, defLimit := 50, defOffset := 0,
    exec := provider0, beforeInsert := none, afterInsert := false }

/-- The empty starting state. -/
def s0 : St := { trace := [], cache := [], now := 0 }

/-! ### C1 -/

/-- C1: for every table name outside the `allowedTables` whitelist, each
public operation taking a table argument returns the ForbiddenTable error
and leaves the state untouched: no statement is issued to the provider, no
hook is run, nothing is executed. -/
theorem forbidden_table_rejected_before_io
    (ctx : Ctx) (table : String) (s : St)
    (h : ctx.allowed.contains table = false) :
    (∀ data, insert ctx table data s = (.error (.forbiddenTable table), s)) ∧
    (∀ data ck, upsert ctx table data ck s = (.error (.forbiddenTable table), s)) ∧
    (∀ arr, bulkInsert ctx table arr s = (.error (.forbiddenTable table), s)) ∧
    (∀ arr ck, bulkUpsert ctx table arr ck s = (.error (.forbiddenTable table), s)) ∧
    (∀ id data idf, updateById ctx table id data idf s = (.error (.forbiddenTable table), s)) ∧
    (∀ conds data, updateWhere ctx table conds data s = (.error (.forbiddenTable table), s)) ∧
    (∀ id soft idf, deleteById ctx table id soft idf s = (.error (.forbiddenTable table), s)) ∧
    (∀ conds soft, deleteWhere ctx table conds soft s = (.error (.forbiddenTable table), s)) ∧
    (∀ o, select ctx table o s = (.error (.forbiddenTable table), s)) ∧
    (∀ conds opts, selectWhere ctx table conds opts s = (.error (.forbiddenTable table), s)) ∧
    (∀ conds, findOne ctx table conds s = (.error (.forbiddenTable table), s)) ∧
    (∀ conds data, findOneAndUpdate ctx table conds data s
      = (.error (.forbiddenTable table), s)) ∧
    (∀ conds soft, findOneAndDelete ctx table conds soft s
      = (.error (.forbiddenTable table), s)) ∧
    (∀ conds, count ctx table conds s = (.error (.forbiddenTable table), s)) ∧
    (∀ page perPage w ob, paginate ctx table page perPage w ob s
      = (.error (.forbiddenTable table), s)) ∧
    (∀ fns gb w hv, aggregate ctx table fns gb w hv s = (.error (.forbiddenTable table), s)) ∧
    (∀ jt bk jk conds cols ty, join ctx table jt bk jk conds cols ty s
      = (.error (.forbiddenTable table), s)) ∧
    (∀ ba js conds cols, multiJoin ctx table ba js conds cols s
      = (.error (.forbiddenTable table), s)) ∧
    (∀ crit ob lim off, advancedSearch ctx table crit ob lim off s
      = (.error (.forbiddenTable table), s)) ∧
    (∀ cols term mode lim ms, fullTextSearch ctx table cols term mode lim ms s
      = (.error (.forbiddenTable table), s)) ∧
    (∀ ids idf, getByIds ctx table ids idf s = (.error (.forbiddenTable table), s)) ∧
    (∀ col vals, whereIn ctx table col vals s = (.error (.forbiddenTable table), s)) ∧
    (∀ col vals, whereNotIn ctx table col vals s = (.error (.forbiddenTable table), s)) ∧
    (∀ ups idf, batchUpdate ctx table ups idf s = (.error (.forbiddenTable table), s)) ∧
    (∀ ids soft idf, batchDelete ctx table ids soft idf s
      = (.error (.forbiddenTable table), s)) ∧
    (truncate ctx table s = (.error (.forbiddenTable table), s)) ∧
    (∀ id f amt idf, increment ctx table id f amt idf s
      = (.error (.forbiddenTable table), s)) ∧
    (∀ id f amt idf, decrement ctx table id f amt idf s
      = (.error (.forbiddenTable table), s)) := by
  have h' : ¬ table ∈ ctx.allowed := by simpa using h
  simp [insert, upsert, bulkInsert, bulkUpsert, updateById, updateWhere, deleteById,
    deleteWhere, select, selectWhere, findOne, findOneAndUpdate, findOneAndDelete, count,
    paginate, aggregate, join, multiJoin, advancedSearch, fullTextSearch, getByIds,
    whereIn, whereNotIn, batchUpdate, batchDelete, truncate, increment, decrement,
    getOne, validateTable, h']

/-- C1 witness: the concrete instance whitelists only `users`; `insert`,
`selectWhere` and `paginate` on table `secrets` fail with ForbiddenTable
and leave the empty state untouched. -/
theorem forbidden_table_rejected_before_io_witness :
    ctx0.allowed.contains "secrets" = false ∧
    insert ctx0 "secrets" [("a", .int 1)] s0 = (.error (.forbiddenTable "secrets"), s0) ∧
    selectWhere ctx0 "secrets" [] {} s0 = (.error (.forbiddenTable "secrets"), s0) ∧
    paginate ctx0 "secrets" 1 20 [] [] s0 = (.error (.forbiddenTable "secrets"), s0) :=
  ⟨by decide,
   (forbidden_table_rejected_before_io ctx0 "secrets" s0 (by decide)).1 [("a", .int 1)],
   ((forbidden_table_rejected_before_io ctx0 "secrets" s0 (by decide)).2.2.2.2.2.2.2.2.2.1) [] {},
   ((forbidden_table_rejected_before_io ctx0 "secrets" s0
      (by decide)).2.2.2.2.2.2.2.2.2.2.2.2.2.2.1) 1 20 [] []⟩

/-! ### C2 -/

/-- An operator string free of placeholder characters; the spec's fixed
operator set (`=`, `!=`, `>`, `>=`, `<`, `<=`, LIKE, IN, BETWEEN, IS NULL,
IS NOT NULL) satisfies this. -/
def opFreeB : CondVal → Bool
  | .lit _ => true
  | .op o _ => countQ o == 0

theorem buildCond_alignment (field : String) (c : CondVal) (hf : countQ field = 0)
    (hc : opFreeB c = true) : countQ (buildCond field c).1 = (buildCond field c).2.length := by
  cases c with
  | lit v =>
    show countQ (bq field ++ " = ?") = 1
    rw [countQ_append, countQ_bq, hf]
    decide
  | op o v =>
    have ho : countQ o = 0 := by simpa [opFreeB] using hc
    unfold buildCond
    by_cases h1 : (jsToUpper o == "LIKE") = true
    · simp only [h1, if_pos]
      show countQ (bq field ++ " LIKE ?") = 1
      rw [countQ_append, countQ_bq, hf]
      decide
    · simp only [h1, Bool.false_eq_true, if_false]
      by_cases h2 : (jsToUpper o == "IN") = true
      · simp only [h2, if_pos]
        cases v <;>
          first
          | (show countQ (bq field ++ " IN (?)") = 1
             rw [countQ_append, countQ_bq, hf]
             decide)
          | (rename_i xs
             show countQ (bq field ++ " IN (" ++ joinSep ", " (xs.map fun _ => "?") ++ ")")
               = xs.length
             rw [countQ_append, countQ_append, countQ_append, countQ_bq, hf,
               countQ_placeholders]
             have e1 : countQ " IN (" = 0 := by decide
             have e2 : countQ ")" = 0 := by decide
             omega)
      · simp only [h2, Bool.false_eq_true, if_false]
        by_cases h3 : (jsToUpper o == "BETWEEN") = true
        · simp only [h3, if_pos]
          show countQ (bq field ++ " BETWEEN ? AND ?") = 2
          rw [countQ_append, countQ_bq, hf]
          decide
        · simp only [h3, Bool.false_eq_true, if_false]
          by_cases h4 : (jsToUpper o == "IS NULL") = true
          · simp only [h4, if_pos]
            show countQ (bq field ++ " IS NULL") = 0
            rw [countQ_append, countQ_bq, hf]
            decide
          · simp only [h4, Bool.false_eq_true, if_false]
            by_cases h5 : (jsToUpper o == "IS NOT NULL") = true
            · simp only [h5, if_pos]
              show countQ (bq field ++ " IS NOT NULL") = 0
              rw [countQ_append, countQ_bq, hf]
              decide
            · simp only [h5, Bool.false_eq_true, if_false]
              show countQ (bq field ++ " " ++ o ++ " ?") = 1
              rw [countQ_append, countQ_append, countQ_append, countQ_bq, hf, ho]
              decide

theorem advConds_alignment (criteria : List (String × CondVal))
    (h : ∀ fc ∈ criteria, countQ fc.1 = 0 ∧ opFreeB fc.2 = true) :
    ((advConds criteria).map countQ).sum = (advValues criteria).length := by
  induction criteria with
  | nil => simp [advConds, advValues]
  | cons fc rest ih =>
    have hfc := h fc (List.mem_cons_self _ _)
    have hrest := fun x hx => h x (List.mem_cons_of_mem _ hx)
    simp only [advConds, advValues, List.map_cons, List.sum_cons, List.flatten_cons,
      List.length_append]
    rw [buildCond_alignment fc.1 fc.2 hfc.1 hfc.2]
    have ih2 := ih hrest
    simp only [advConds, advValues] at ih2
    omega

theorem countQ_orderAdv (orderBy : List (String × Option String))
    (h : ∀ o ∈ orderBy, countQ o.1 = 0 ∧ countQ (o.2.getD "ASC") = 0) :
    countQ (joinSep ", " (orderBy.map fun o => advOrderItem o.1 o.2)) = 0 := by
  rw [countQ_joinSep ", " (by decide)]
  induction orderBy with
  | nil => simp
  | cons o rest ih =>
    have ho := h o (List.mem_cons_self _ _)
    simp only [List.map_cons, List.sum_cons]
    rw [ih (fun x hx => h x (List.mem_cons_of_mem _ hx))]
    have : countQ (advOrderItem o.1 o.2) = 0 := by
      unfold advOrderItem
      rw [countQ_append, countQ_append, countQ_bq, ho.1, ho.2]
      decide
    omega

theorem countQ_ftsColumns (columns : List String) (h : ∀ c ∈ columns, countQ c = 0) :
    countQ (ftsColumnsStr columns) = 0 := by
  unfold ftsColumnsStr
  rw [countQ_joinSep ", " (by decide)]
  induction columns with
  | nil => simp
  | cons c rest ih =>
    simp only [List.map_cons, List.sum_cons]
    rw [ih (fun x hx => h x (List.mem_cons_of_mem _ hx)), countQ_bq,
      h c (List.mem_cons_self _ _)]

/-- C2: for every Condition Map over placeholder-free identifiers and
operators, each statement-building operation produces as many `?`
placeholders as bound parameters, clause by clause in left-to-right order:
plain equality conditions (`selectWhere`), operator-tagged conditions with
IN expansion and BETWEEN (`advancedSearch`), and the duplicated
MATCH...AGAINST placeholders of `fullTextSearch`. -/
theorem placeholder_parameter_alignment :
    (∀ (table : String) (conds : Row) (lim off : Nat),
      countQ table = 0 → (∀ kv ∈ conds, countQ kv.1 = 0) →
      countQ (selectWhereSql table (conds.map Prod.fst) lim off)
        = (conds.map Prod.snd).length) ∧
    (∀ (table : String) (criteria : List (String × CondVal))
        (orderBy : List (String × Option String)) (lim off : Nat),
      countQ table = 0 →
      (∀ fc ∈ criteria, countQ fc.1 = 0 ∧ opFreeB fc.2 = true) →
      (∀ o ∈ orderBy, countQ o.1 = 0 ∧ countQ (o.2.getD "ASC") = 0) →
      countQ (advancedSearchSql table criteria orderBy lim off)
        = (advValues criteria).length) ∧
    (∀ (table : String) (columns : List String) (mode term : String) (lim ms : Nat),
      countQ table = 0 → (∀ c ∈ columns, countQ c = 0) → countQ mode = 0 →
      countQ (fullTextSearchSql table columns mode lim ms)
        = (fullTextSearchParams term ms).length) ∧
    (∀ (field : String) (c : CondVal), countQ field = 0 → opFreeB c = true →
      countQ (buildCond field c).1 = (buildCond field c).2.length) := by
  refine ⟨?_, ?_, ?_, fun f c hf hc => buildCond_alignment f c hf hc⟩
  · intro table conds lim off ht hk
    have hb : countQ (bq table) = 0 := by rw [countQ_bq, ht]
    have hcc : countQ (condClause (conds.map Prod.fst)) = conds.length := by
      rw [countQ_condClause]
      · simp
      · intro k hk2
        obtain ⟨kv, hkv, rfl⟩ := List.mem_map.mp hk2
        exact hk kv hkv
    unfold selectWhereSql
    rw [countQ_trimS]
    split_ifs with hA hB hC
    all_goals
      simp only [countQ_append, hb, hcc, countQ_natRepr,
        show countQ "SELECT * FROM " = 0 from by decide,
        show countQ " WHERE " = 0 from by decide,
        show countQ " " = 0 from by decide,
        show countQ "" = 0 from by decide,
        show countQ "LIMIT " = 0 from by decide,
        show countQ "OFFSET " = 0 from by decide]
      simp only [List.length_map] at *
      try omega
  · intro table criteria orderBy lim off ht hcrit hord
    have hb : countQ (bq table) = 0 := by rw [countQ_bq, ht]
    have hwc : countQ (joinSep " AND " (advConds criteria))
        = (advValues criteria).length := by
      rw [countQ_joinSep " AND " (by decide)]
      exact advConds_alignment criteria hcrit
    have hoc := countQ_orderAdv orderBy hord
    unfold advancedSearchSql
    rw [countQ_trimS]
    split_ifs with hA hB
    case pos | neg =>
      simp only [countQ_append, hb, hwc, hoc, countQ_natRepr,
        show countQ "\n        SELECT * FROM " = 0 from by decide,
        show countQ "\n        " = 0 from by decide,
        show countQ "" = 0 from by decide,
        show countQ "\n      " = 0 from by decide,
        show countQ "\n        LIMIT " = 0 from by decide,
        show countQ " OFFSET " = 0 from by decide,
        show countQ "WHERE " = 0 from by decide,
        show countQ "ORDER BY " = 0 from by decide]
      omega
    all_goals
      have hnil : criteria = [] := by
        cases criteria with
        | nil => rfl
        | cons fc rest => simp [advConds] at hA
      subst hnil
      simp only [countQ_append, hb, hoc, countQ_natRepr,
        show advValues [] = [] from rfl,
        show countQ "\n        SELECT * FROM " = 0 from by decide,
        show countQ "\n        " = 0 from by decide,
        show countQ "" = 0 from by decide,
        show countQ "\n      " = 0 from by decide,
        show countQ "\n        LIMIT " = 0 from by decide,
        show countQ " OFFSET " = 0 from by decide,
        show countQ "ORDER BY " = 0 from by decide,
        List.length_nil]
      try omega
  · intro table columns mode term lim ms ht hcols hm
    have hb : countQ (bq table) = 0 := by rw [countQ_bq, ht]
    have hcs : countQ (ftsColumnsStr columns) = 0 := countQ_ftsColumns columns hcols
    unfold fullTextSearchSql fullTextSearchParams
    split_ifs with hA
    all_goals
      simp only [countQ_append, hb, hcs, hm, countQ_natRepr,
        show countQ "\n        SELECT *, MATCH(" = 0 from by decide,
        show countQ ") AGAINST(? IN " = 1 from by decide,
        show countQ " MODE) as relevance\n        FROM " = 0 from by decide,
        show countQ "\n        WHERE MATCH(" = 0 from by decide,
        show countQ " MODE)\n        " = 0 from by decide,
        show countQ "AND MATCH(" = 0 from by decide,
        show countQ " MODE) > " = 0 from by decide,
        show countQ "\n        ORDER BY relevance DESC\n        LIMIT " = 0 from by decide,
        show countQ "\n      " = 0 from by decide,
        show countQ "" = 0 from by decide,
        List.length_cons, List.length_nil]
      try omega

/-- C2 witness: concrete alignment checks — a two-key equality map for
`selectWhere`; a criteria map exercising IN expansion, BETWEEN, LIKE,
IS NULL and a comparison operator for `advancedSearch`; and
`fullTextSearch` both with and without a minimum score. -/
theorem placeholder_parameter_alignment_witness :
    countQ (selectWhereSql "users" ["name", "email"] 10 5) = 2 ∧
    countQ (advancedSearchSql "users"
      [("age", .op "BETWEEN" (.obj [("min", .int 18), ("max", .int 30)])),
       ("role", .op "IN" (.arr [.str "a", .str "b", .str "c"])),
       ("name", .op "LIKE" (.str "jo")),
       ("deleted_at", .op "IS NULL" .null),
       ("score", .op ">=" (.int 10)),
       ("city", .lit (.str "x"))]
      [("name", none)] 100 0) = 8 ∧
    countQ (fullTextSearchSql "users" ["bio", "title"] "NATURAL LANGUAGE" 100 2) = 3 ∧
    countQ (fullTextSearchSql "users" ["bio", "title"] "NATURAL LANGUAGE" 100 0) = 2 := by
  have h := placeholder_parameter_alignment
  refine ⟨?_, ?_, ?_, ?_⟩
  · have := h.1 "users" [("name", .int 0), ("email", .int 0)] 10 5 (by decide)
      (by decide)
    simpa using this
  · have := h.2.1 "users"
      [("age", .op "BETWEEN" (.obj [("min", .int 18), ("max", .int 30)])),
       ("role", .op "IN" (.arr [.str "a", .str "b", .str "c"])),
       ("name", .op "LIKE" (.str "jo")),
       ("deleted_at", .op "IS NULL" .null),
       ("score", .op ">=" (.int 10)),
       ("city", .lit (.str "x"))]
      [("name", none)] 100 0 (by decide) (by decide) (by decide)
    exact this.trans (by decide)
  · have := h.2.2.1 "users" ["bio", "title"] "NATURAL LANGUAGE" "term" 100 2 (by decide)
      (by decide) (by decide)
    simpa [fullTextSearchParams] using this
  · have := h.2.2.1 "users" ["bio", "title"] "NATURAL LANGUAGE" "term" 100 0 (by decide)
      (by decide) (by decide)
    simpa [fullTextSearchParams] using this

/-! ### C3 -/

theorem countP_release_bodyEvents (bodyStmts : List (String × List JVal)) :
    (bodyEvents bodyStmts).countP isRelease = 0 := by
  induction bodyStmts with
  | nil => rfl
  | cons p rest ih =>
    simp only [bodyEvents, List.map_cons, List.countP_cons] at *
    simp [isRelease, ih]

theorem countP_acquire_bodyEvents (bodyStmts : List (String × List JVal)) :
    (bodyEvents bodyStmts).countP isAcquire = 0 := by
  induction bodyStmts with
  | nil => rfl
  | cons p rest ih =>
    simp only [bodyEvents, List.map_cons, List.countP_cons] at *
    simp [isAcquire, ih]

/-- C3: `transaction(body)` acquires one dedicated connection and issues
begin; when the body succeeds (and commit succeeds) it commits and returns
the body's result; when the body throws and rollback succeeds it issues
rollback and rethrows the original error unchanged; and on every exit path
— success, caught failure, or rollback failure — the connection is
released exactly once (and acquired exactly once). -/
theorem transaction_contract (α : Type) (conn : TxConn) (bodyRes : Except TxErr α)
    (bodyStmts : List (String × List JVal)) :
    (∀ a, conn.beginFails = none → conn.commitFails = none → bodyRes = .ok a →
      transaction α conn bodyRes bodyStmts =
        (.ok a, [.acquire, .txBegin] ++ bodyEvents bodyStmts ++ [.commit, .release])) ∧
    (∀ e, conn.beginFails = none → conn.rollbackFails = none → bodyRes = .error e →
      transaction α conn bodyRes bodyStmts =
        (.error e, [.acquire, .txBegin] ++ bodyEvents bodyStmts ++ [.rollback, .release])) ∧
    (transaction α conn bodyRes bodyStmts).2.countP isRelease = 1 ∧
    (transaction α conn bodyRes bodyStmts).2.countP isAcquire = 1 := by
  refine ⟨?_, ?_, ?_, ?_⟩
  · intro a hb hc hres
    subst hres
    simp [transaction, hb, hc]
  · intro e hb hr hres
    subst hres
    simp [transaction, hb, hr]
  · unfold transaction
    rcases conn.beginFails with _ | e1 <;> rcases conn.rollbackFails with _ | e2 <;>
      rcases bodyRes with e | a <;> try rcases conn.commitFails with _ | e3
    all_goals
      simp [List.countP_append, List.countP_cons, isRelease,
        countP_release_bodyEvents]
  · unfold transaction
    rcases conn.beginFails with _ | e1 <;> rcases conn.rollbackFails with _ | e2 <;>
      rcases bodyRes with e | a <;> try rcases conn.commitFails with _ | e3
    all_goals
      simp [List.countP_append, List.countP_cons, isAcquire,
        countP_acquire_bodyEvents]

/-- C3 witness: a connection whose primitives all succeed, a body issuing
one statement; success path commits and releases once, failure path rolls
back, rethrows the original error and releases once. -/
theorem transaction_contract_witness :
    transaction Nat {} (.ok 7) [("SELECT 1", [])] =
      (.ok 7, [.acquire, .txBegin, .stmt "SELECT 1" [], .commit, .release]) ∧
    transaction Nat {} (.error "boom") [("SELECT 1", [])] =
      (.error "boom", [.acquire, .txBegin, .stmt "SELECT 1" [], .rollback, .release]) ∧
    (transaction Nat { rollbackFails := some "rbfail" } (.error "boom")
      [("SELECT 1", [])]).2.countP isRelease = 1 :=
  ⟨(transaction_contract Nat {} (.ok 7) [("SELECT 1", [])]).1 7 rfl rfl rfl,
   (transaction_contract Nat {} (.error "boom") [("SELECT 1", [])]).2.1 "boom" rfl rfl rfl,
   (transaction_contract Nat { rollbackFails := some "rbfail" } (.error "boom")
     [("SELECT 1", [])]).2.2.1⟩

/-! ### C4 -/

/-- C4 counterexample: the claim that an operator outside the fixed set
fails with UnsupportedOperator is false — the source's `default` switch
branch interpolates the unknown operator verbatim: with operator `FOO`
the call succeeds and a statement containing `` `age` FOO ? `` is issued
to the provider. -/
theorem advanced_search_unknown_operator_counterexample :
    (advancedSearch ctx0 "users" [("age", .op "FOO" (.int 7))] [] 100 0 s0).1 = .ok [] ∧
    (advancedSearch ctx0 "users" [("age", .op "FOO" (.int 7))] [] 100 0 s0).2.trace
      = [Event.stmt (advancedSearchSql "users" [("age", .op "FOO" (.int 7))] [] 100 0)
          [.int 7]] ∧
    strIncludes (advancedSearchSql "users" [("age", .op "FOO" (.int 7))] [] 100 0)
      "`age` FOO ?" = true :=
  ⟨rfl, rfl, by decide⟩

/-- C4 (amended): `advancedSearch` dispatches on the upper-cased operator
of each filter descriptor — LIKE wraps the value in `%` wildcards; IN
emits one placeholder per element of a sequence value and coerces a scalar
to one element; BETWEEN emits `col BETWEEN ? AND ?` binding `value.min`
then `value.max`; IS [NOT] NULL emit no placeholder and ignore the value;
and every other operator string (the comparison operators and any unknown
operator alike) is interpolated verbatim as `col <op> ?` binding the
value — no UnsupportedOperator failure exists, and statement building
never fails on a whitelisted table. -/
theorem advanced_search_operator_dispatch :
    (∀ field o (v : JVal), jsToUpper o = "LIKE" →
      buildCond field (.op o v)
        = (bq field ++ " LIKE ?", [.str ("%" ++ jvalToString v ++ "%")])) ∧
    (∀ field o (xs : List JVal), jsToUpper o = "IN" →
      buildCond field (.op o (.arr xs))
        = (bq field ++ " IN (" ++ joinSep ", " (xs.map fun _ => "?") ++ ")", xs)) ∧
    (∀ field o (v : JVal), jsToUpper o = "IN" → (∀ xs, v ≠ .arr xs) →
      buildCond field (.op o v) = (bq field ++ " IN (?)", [v])) ∧
    (∀ field o (v : JVal), jsToUpper o = "BETWEEN" →
      buildCond field (.op o v)
        = (bq field ++ " BETWEEN ? AND ?", [jsGet v "min", jsGet v "max"])) ∧
    (∀ field o (v : JVal), jsToUpper o = "IS NULL" →
      buildCond field (.op o v) = (bq field ++ " IS NULL", [])) ∧
    (∀ field o (v : JVal), jsToUpper o = "IS NOT NULL" →
      buildCond field (.op o v) = (bq field ++ " IS NOT NULL", [])) ∧
    (∀ field o (v : JVal),
      jsToUpper o ≠ "LIKE" → jsToUpper o ≠ "IN" → jsToUpper o ≠ "BETWEEN" →
      jsToUpper o ≠ "IS NULL" → jsToUpper o ≠ "IS NOT NULL" →
      buildCond field (.op o v) = (bq field ++ " " ++ o ++ " ?", [v])) ∧
    (∀ (ctx : Ctx) table criteria ob lim off s,
      ctx.allowed.contains table = true →
      ∃ rows s1, advancedSearch ctx table criteria ob lim off s = (.ok rows, s1)) := by
  refine ⟨?_, ?_, ?_, ?_, ?_, ?_, ?_, ?_⟩
  · intro field o v h
    simp [buildCond, h]
  · intro field o xs h
    simp [buildCond, h]
  · intro field o v h hv
    cases v <;> simp [buildCond, h]
    exact absurd rfl (hv _)
  · intro field o v h
    simp [buildCond, h]
  · intro field o v h
    simp [buildCond, h]
  · intro field o v h
    simp [buildCond, h]
  · intro field o v h1 h2 h3 h4 h5
    simp [buildCond, beq_iff_eq, h1, h2, h3, h4, h5]
  · intro ctx table criteria ob lim off s h
    rcases hq : query ctx (advancedSearchSql table criteria ob lim off)
      (advValues criteria) false s with ⟨rows, s1⟩
    have h' : table ∈ ctx.allowed := by simpa using h
    exact ⟨rows, s1, by simp [advancedSearch, validateTable, h', hq]⟩

/-- C4 witness: concrete dispatches — lower-case `like` is wildcarded,
`IN` over a three-element sequence expands to three placeholders, a scalar
`IN` value is coerced to one element, `BETWEEN` binds min then max, the
null operators ignore the value, `>=` and the unknown `FOO` both emit
`col <op> ?`. -/
theorem advanced_search_operator_dispatch_witness :
    buildCond "name" (.op "like" (.str "jo")) = ("`name` LIKE ?", [.str "%jo%"]) ∧
    buildCond "role" (.op "IN" (.arr [.str "a", .str "b", .str "c"]))
      = ("`role` IN (?, ?, ?)", [.str "a", .str "b", .str "c"]) ∧
    buildCond "id" (.op "IN" (.int 3)) = ("`id` IN (?)", [.int 3]) ∧
    buildCond "age" (.op "between" (.obj [("min", .int 18), ("max", .int 30)]))
      = ("`age` BETWEEN ? AND ?", [.int 18, .int 30]) ∧
    buildCond "deleted_at" (.op "is null" (.int 99)) = ("`deleted_at` IS NULL", []) ∧
    buildCond "score" (.op ">=" (.int 10)) = ("`score` >= ?", [.int 10]) ∧
    buildCond "age" (.op "FOO" (.int 7)) = ("`age` FOO ?", [.int 7]) ∧
    (∃ rows s1, advancedSearch ctx0 "users" [("x", .op "FOO" .null)] [] 100 0 s0
      = (.ok rows, s1)) := by
  have h := advanced_search_operator_dispatch
  refine ⟨?_, ?_, ?_, ?_, ?_, ?_, ?_, ?_⟩
  · exact (h.1 "name" "like" (.str "jo") (by decide)).trans rfl
  · exact (h.2.1 "role" "IN" [.str "a", .str "b", .str "c"] (by decide)).trans rfl
  · exact (h.2.2.1 "id" "IN" (.int 3) (by decide) (fun xs hx => nomatch hx)).trans rfl
  · exact (h.2.2.2.1 "age" "between" (.obj [("min", .int 18), ("max", .int 30)])
      (by decide)).trans rfl
  · exact (h.2.2.2.2.1 "deleted_at" "is null" (.int 99) (by decide)).trans rfl
  · exact (h.2.2.2.2.2.2.1 "score" ">=" (.int 10) (by decide) (by decide) (by decide)
      (by decide) (by decide)).trans rfl
  · exact (h.2.2.2.2.2.2.1 "age" "FOO" (.int 7) (by decide) (by decide) (by decide)
      (by decide) (by decide)).trans rfl
  · exact h.2.2.2.2.2.2.2 ctx0 "users" [("x", .op "FOO" .null)] [] 100 0 s0 (by decide)

/-! ### C5 -/

theorem lookup_none_any (c : List (String × CEntry)) (k : String)
    (h : c.lookup k = none) : (c.any fun kv => kv.1 == k) = false := by
  induction c with
  | nil => rfl
  | cons a t ih =>
    cases a with
    | mk k1 v1 =>
      by_cases hk : k = k1
      · subst hk
        simp at h
      · have h1 : (k == k1) = false := beq_eq_false_iff_ne.mpr hk
        have h2 : (k1 == k) = false := beq_eq_false_iff_ne.mpr (Ne.symm hk)
        simp only [List.lookup, h1] at h
        simp only [List.any_cons, h2, Bool.false_or]
        exact ih h

theorem lookup_append_none (c : List (String × CEntry)) (k : String) (e : CEntry)
    (h : c.lookup k = none) : (c ++ [(k, e)]).lookup k = some e := by
  induction c with
  | nil => simp [List.lookup]
  | cons a t ih =>
    cases a with
    | mk k1 v1 =>
      by_cases hk : k = k1
      · subst hk
        simp at h
      · have h1 : (k == k1) = false := beq_eq_false_iff_ne.mpr hk
        simp only [List.lookup, h1] at h
        simp only [List.cons_append, List.lookup, h1]
        exact ih h

theorem lookup_clearTableCache (c : List (String × CEntry)) (table key : String)
    (h : strIncludes key table = true) :
    (clearTableCache c table).lookup key = none := by
  induction c with
  | nil => rfl
  | cons a t ih =>
    cases a with
    | mk k1 v1 =>
      by_cases hf : strIncludes k1 table = true
      · have : clearTableCache ((k1, v1) :: t) table = clearTableCache t table := by
          simp [clearTableCache, List.filter, hf]
        rw [this]
        exact ih
      · have hcons : clearTableCache ((k1, v1) :: t) table
            = (k1, v1) :: clearTableCache t table := by
          simp [clearTableCache, List.filter, hf]
        rw [hcons]
        have hk : (key == k1) = false := by
          by_contra hx
          simp only [Bool.not_eq_false, beq_iff_eq] at hx
          rw [hx] at h
          exact hf h
        simp only [List.lookup, hk]
        exact ih

theorem batchUpdate_fold_cache (ctx : Ctx) (table idField : String) (ups : List Row)
    (s : St) :
    (ups.foldl (fun st u => batchUpdateStep ctx table idField u st) s).cache = s.cache := by
  induction ups generalizing s with
  | nil => rfl
  | cons u rest ih =>
    simp only [List.foldl_cons]
    rw [ih]
    rfl

/-- C5: with the cache enabled — (a) two identical cache-eligible reads,
the second within the expiry window and with no intervening mutation,
execute exactly one statement (the second returns the cached rows); (b) a
hit whose age reaches the expiry is deleted and re-executed as a miss,
storing a fresh entry; (c) every mutating operation's resulting cache is
exactly the previous cache minus the entries whose key contains the table
name; (d) after such a mutation, an identical read issues a fresh
statement. -/
theorem cache_coherence (ctx : Ctx) (sql : String) (params : List JVal) (s : St)
    (henb : ctx.enableQueryCache = true) :
    (∀ d, cacheGet s.cache (cacheKey sql params) = none → d < ctx.cacheExpiry →
      (query ctx sql params true
          { (query ctx sql params true s).2 with
            now := (query ctx sql params true s).2.now + d }).1
        = (query ctx sql params true s).1 ∧
      (query ctx sql params true
          { (query ctx sql params true s).2 with
            now := (query ctx sql params true s).2.now + d }).2.trace
        = s.trace ++ [Event.stmt sql params] ∧
      (query ctx sql params true s).1 = (ctx.exec sql params).rows) ∧
    (∀ e, cacheGet s.cache (cacheKey sql params) = some e →
      e.timestamp + ctx.cacheExpiry ≤ s.now →
      query ctx sql params true s
        = ((ctx.exec sql params).rows,
           { s with trace := s.trace ++ [Event.stmt sql params],
                    cache := cacheSet (cacheDelete s.cache (cacheKey sql params))
                      (cacheKey sql params) ⟨(ctx.exec sql params).rows, s.now⟩ })) ∧
    (∀ (c : List (String × CEntry)) (table : String),
      (∀ kv ∈ clearTableCache c table, strIncludes kv.1 table = false) ∧
      (∀ kv ∈ c, strIncludes kv.1 table = false → kv ∈ clearTableCache c table)) ∧
    (∀ table, ctx.allowed.contains table = true →
      (∀ data, (insert ctx table data s).2.cache = clearTableCache s.cache table) ∧
      (∀ data ck, (upsert ctx table data ck s).2.cache = clearTableCache s.cache table) ∧
      (∀ r0 arr, (bulkInsert ctx table (r0 :: arr) s).2.cache
        = clearTableCache s.cache table) ∧
      (∀ r0 arr ck, (bulkUpsert ctx table (r0 :: arr) ck s).2.cache
        = clearTableCache s.cache table) ∧
      (∀ id data idf, (updateById ctx table id data idf s).2.cache
        = clearTableCache s.cache table) ∧
      (∀ conds data, (updateWhere ctx table conds data s).2.cache
        = clearTableCache s.cache table) ∧
      (∀ id soft idf, (deleteById ctx table id soft idf s).2.cache
        = clearTableCache s.cache table) ∧
      (∀ conds soft, (deleteWhere ctx table conds soft s).2.cache
        = clearTableCache s.cache table) ∧
      (∀ u us idf, (batchUpdate ctx table (u :: us) idf s).2.cache
        = clearTableCache s.cache table) ∧
      (∀ id ids soft idf, (batchDelete ctx table (id :: ids) soft idf s).2.cache
        = clearTableCache s.cache table) ∧
      (∀ id f amt idf, (increment ctx table id f amt idf s).2.cache
        = clearTableCache s.cache table) ∧
      (∀ id f amt idf, (decrement ctx table id f amt idf s).2.cache
        = clearTableCache s.cache table) ∧
      ((truncate ctx table s).2.cache = clearTableCache s.cache table)) ∧
    (∀ table data, ctx.allowed.contains table = true →
      strIncludes (cacheKey sql params) table = true →
      (query ctx sql params true (insert ctx table data s).2).2.trace
        = (insert ctx table data s).2.trace ++ [Event.stmt sql params]) := by
  refine ⟨?_, ?_, ?_, ?_, ?_⟩
  · intro d hmiss hd
    have hq1 : query ctx sql params true s
        = ((ctx.exec sql params).rows,
           { s with trace := s.trace ++ [Event.stmt sql params],
                    cache := s.cache ++ [(cacheKey sql params,
                      ⟨(ctx.exec sql params).rows, s.now⟩)] }) := by
      unfold query queryExec execStmt
      simp only [henb, Bool.and_true, Bool.true_and]
      rw [show cacheGet s.cache (cacheKey sql params) = none from hmiss]
      simp only [cacheSet, lookup_none_any s.cache (cacheKey sql params) hmiss,
        Bool.false_eq_true, if_false]
      rfl
    rw [hq1]
    have hhit : cacheGet (s.cache ++ [(cacheKey sql params,
        (⟨(ctx.exec sql params).rows, s.now⟩ : CEntry))]) (cacheKey sql params)
        = some ⟨(ctx.exec sql params).rows, s.now⟩ :=
      lookup_append_none s.cache (cacheKey sql params) _ hmiss
    unfold query
    simp only [henb, Bool.and_true, Bool.true_and]
    rw [hhit]
    simp [show s.now + d - s.now = d from by omega, hd]
  · intro e hsome hexp
    have hlt : ¬ (s.now - e.timestamp < ctx.cacheExpiry) := by omega
    simp [query, queryExec, execStmt, henb, hsome, hlt]
  · intro c table
    constructor
    · intro kv hkv
      have := List.mem_filter.mp hkv
      simpa using this.2
    · intro kv hkv hfree
      exact List.mem_filter.mpr ⟨hkv, by simp [hfree]⟩
  · intro table hT
    have hT' : table ∈ ctx.allowed := by simpa using hT
    refine ⟨?_, ?_, ?_, ?_, ?_, ?_, ?_, ?_, ?_, ?_, ?_, ?_, ?_⟩
    · intro data
      simp [insert, validateTable, hT', runBeforeInsert, runAfterInsert, execStmt]
      cases hbi : ctx.beforeInsert <;> cases he : ctx.enableHooks <;>
        cases ha : ctx.afterInsert <;> simp [hbi, he, ha]
    · intro data ck
      simp [upsert, validateTable, hT', execStmt]
    · intro r0 arr
      simp [bulkInsert, validateTable, hT', execStmt]
    · intro r0 arr ck
      simp [bulkUpsert, validateTable, hT', execStmt]
    · intro id data idf
      simp [updateById, validateTable, hT', execStmt]
    · intro conds data
      simp [updateWhere, validateTable, hT', execStmt]
    · intro id soft idf
      simp [deleteById, validateTable, hT', execStmt]
    · intro conds soft
      simp [deleteWhere, validateTable, hT', execStmt]
    · intro u us idf
      have hfold := batchUpdate_fold_cache ctx table idf (u :: us) s
      rw [List.foldl_cons] at hfold
      simp [batchUpdate, validateTable, hT', hfold]
    · intro id ids soft idf
      cases soft <;> simp [batchDelete, validateTable, hT', execStmt]
    · intro id f amt idf
      simp [increment, validateTable, hT', query, queryExec, execStmt, henb]
    · intro id f amt idf
      simp [decrement, validateTable, hT', query, queryExec, execStmt, henb]
    · simp [truncate, validateTable, hT', query, queryExec, execStmt, henb]
  · intro table data hT hkey
    have hT' : table ∈ ctx.allowed := by simpa using hT
    have hcache : (insert ctx table data s).2.cache = clearTableCache s.cache table := by
      simp [insert, validateTable, hT', runBeforeInsert, runAfterInsert, execStmt]
      cases hbi : ctx.beforeInsert <;> cases he : ctx.enableHooks <;>
        cases ha : ctx.afterInsert <;> simp [hbi, he, ha]
    unfold query queryExec execStmt
    simp only [henb, Bool.and_true, Bool.true_and]
    rw [show cacheGet (insert ctx table data s).2.cache (cacheKey sql params) = none from by
      rw [hcache]; exact lookup_clearTableCache s.cache table (cacheKey sql params) hkey]
    rfl

/-- A state holding one stale cache entry (stored at time 0, clock already
at 70000 ≥ the 60000 expiry of `ctx0`). -/
def sExp : St :=
  { trace := [], cache := [(cacheKey "Q" [], ⟨[], 0⟩)], now := 70000 }

/-- C5 witness: on the concrete instance — a double read of the same
statement issues exactly one statement; a stale hit re-executes; `insert`
filters the `users` cache entries; and the read after the insert issues a
fresh statement. -/
theorem cache_coherence_witness :
    ctx0.enableQueryCache = true ∧
    cacheGet s0.cache (cacheKey "SELECT * FROM `users`" []) = none ∧
    100 < ctx0.cacheExpiry ∧
    (query ctx0 "SELECT * FROM `users`" [] true
        { (query ctx0 "SELECT * FROM `users`" [] true s0).2 with
          now := (query ctx0 "SELECT * FROM `users`" [] true s0).2.now + 100 }).2.trace
      = s0.trace ++ [Event.stmt "SELECT * FROM `users`" []] ∧
    (query ctx0 "Q" [] true sExp).1 = [] ∧
    (insert ctx0 "users" [("a", .int 1)] s0).2.cache = clearTableCache s0.cache "users" ∧
    strIncludes (cacheKey "SELECT * FROM `users`" []) "users" = true ∧
    (query ctx0 "SELECT * FROM `users`" [] true
        (insert ctx0 "users" [("a", .int 1)] s0).2).2.trace
      = (insert ctx0 "users" [("a", .int 1)] s0).2.trace
          ++ [Event.stmt "SELECT * FROM `users`" []] :=
  ⟨rfl, rfl, by decide,
   ((cache_coherence ctx0 "SELECT * FROM `users`" [] s0 rfl).1 100 rfl (by decide)).2.1,
   (congrArg Prod.fst ((cache_coherence ctx0 "Q" [] sExp rfl).2.1 ⟨[], 0⟩ rfl
     (by decide))).trans rfl,
   ((cache_coherence ctx0 "SELECT * FROM `users`" [] s0 rfl).2.2.2.1 "users"
     (by decide)).1 [("a", .int 1)],
   by decide,
   (cache_coherence ctx0 "SELECT * FROM `users`" [] s0 rfl).2.2.2.2 "users"
     [("a", .int 1)] (by decide) (by decide)⟩

/-! ### C6 -/

/-- C6: when at least one FULL join descriptor is present (and all join
types are valid), `multiJoin` issues exactly one combined statement of the
form `(LEFT JOIN query) UNION (mirrored LEFT JOIN query with base and join
tables swapped)`, with the condition parameter list duplicated once per
half; the statement is built from the first FULL descriptor only, and the
second conjunct spells out the emitted text: no native FULL OUTER JOIN
appears, only two LEFT JOIN halves around UNION. -/
theorem multijoin_full_emulation (ctx : Ctx) (baseTable : String)
    (baseAliasOpt : Option String) (joins : List JoinDesc) (conditions : Row)
    (columns : List String) (s : St)
    (hB : ctx.allowed.contains baseTable = true)
    (hJ : validateJoinTables ctx joins = .ok ())
    (hV : joins.find? (fun j => !(validJoinTypes.contains (joinTypeOf j))) = none)
    (fj : JoinDesc) (rest : List JoinDesc)
    (hF : joins.filter isFullJoin = fj :: rest) :
    multiJoin ctx baseTable baseAliasOpt joins conditions columns s
      = (.ok (ctx.exec
            (fullUnionSql baseTable (baseAliasOpt.getD baseTable) fj columns
              (multiJoinWhere (baseAliasOpt.getD baseTable) (conditions.map Prod.fst)))
            (conditions.map Prod.snd ++ conditions.map Prod.snd)).rows,
         { s with trace := s.trace ++ [Event.stmt
            (fullUnionSql baseTable (baseAliasOpt.getD baseTable) fj columns
              (multiJoinWhere (baseAliasOpt.getD baseTable) (conditions.map Prod.fst)))
            (conditions.map Prod.snd ++ conditions.map Prod.snd)] }) ∧
    (∀ (bt ba : String) (j : JoinDesc) (cols : List String) (w : String),
      fullUnionSql bt ba j cols w
        = "(" ++ ("\n          SELECT " ++ joinSep ", " cols ++
          "\n          FROM " ++ bq bt ++ " AS " ++ bq ba ++
          "\n          LEFT JOIN " ++ bq j.table ++ " AS " ++ bq (j.jalias.getD j.table) ++
            " ON " ++ bq ba ++ "." ++ bq j.baseColumn ++ " = " ++
            bq (j.jalias.getD j.table) ++ "." ++ bq j.joinColumn ++
          "\n          " ++ w ++ "\n        ") ++ ") UNION (" ++
          ("\n          SELECT " ++ joinSep ", " cols ++
          "\n          FROM " ++ bq j.table ++ " AS " ++ bq (j.jalias.getD j.table) ++
          "\n          LEFT JOIN " ++ bq bt ++ " AS " ++ bq ba ++
            " ON " ++ bq (j.jalias.getD j.table) ++ "." ++ bq j.joinColumn ++ " = " ++
            bq ba ++ "." ++ bq j.baseColumn ++
          "\n          " ++ w ++ "\n        ") ++ ")") := by
  constructor
  · have hB' : baseTable ∈ ctx.allowed := by simpa using hB
    have hV' : joins.find? (fun j => !decide (joinTypeOf j ∈ validJoinTypes)) = none := by
      simpa using hV
    simp only [multiJoin, validateTable, hB', hJ, hV', hF, query, queryExec, execStmt]
    simp [hB', hJ, hV']
  · intro bt ba j cols w
    rfl

/-- A context whitelisting the three tables exercised by the multi-join
witness. -/
def ctx1 : Ctx :=
  { allowed := ["users", "orders", "items"], useTimestamps := true,
    enableQueryCache := false, cacheExpiry := 60000, enableHooks := true,
    defLimit := 50, defOffset := 0, exec := provider0, beforeInsert := none,
    afterInsert := false }

set_option maxRecDepth 4000 in
/-- C6 witness: two FULL descriptors are supplied; the emitted statement is
built from the first only (`orders`), the parameter list is duplicated,
and the emitted text contains UNION and two LEFT JOINs but no FULL OUTER
JOIN. -/
theorem multijoin_full_emulation_witness :
    multiJoin ctx1 "users" none
        [{ table := "orders", jtype := some "full", baseColumn := "id",
           joinColumn := "user_id" },
         { table := "items", jtype := some "FULL", baseColumn := "id",
           joinColumn := "uid" }]
        [("active", .int 1)] ["*"] s0
      = (.ok [],
         { s0 with trace := [Event.stmt
            (fullUnionSql "users" "users"
              { table := "orders", jtype := some "full", baseColumn := "id",
                joinColumn := "user_id" } ["*"]
              (multiJoinWhere "users" ["active"]))
            [.int 1, .int 1]] }) ∧
    strIncludes
      (fullUnionSql "users" "users"
        { table := "orders", jtype := some "full", baseColumn := "id",
          joinColumn := "user_id" } ["*"]
        (multiJoinWhere "users" ["active"])) "FULL" = false ∧
    strIncludes
      (fullUnionSql "users" "users"
        { table := "orders", jtype := some "full", baseColumn := "id",
          joinColumn := "user_id" } ["*"]
        (multiJoinWhere "users" ["active"])) ") UNION (" = true :=
  ⟨(multijoin_full_emulation ctx1 "users" none
      [{ table := "orders", jtype := some "full", baseColumn := "id",
         joinColumn := "user_id" },
       { table := "items", jtype := some "FULL", baseColumn := "id",
         joinColumn := "uid" }]
      [("active", .int 1)] ["*"] s0 (by decide) rfl rfl
      { table := "orders", jtype := some "full", baseColumn := "id",
        joinColumn := "user_id" }
      [{ table := "items", jtype := some "FULL", baseColumn := "id",
         joinColumn := "uid" }] rfl).1.trans rfl,
   by decide, by decide⟩

/-! ### C7 -/

theorem natCeilDiv_mul_ge (R P : Nat) (hP : 0 < P) : R ≤ natCeilDiv R P * P := by
  unfold natCeilDiv
  cases R with
  | zero => simp
  | succ r =>
    have h1 : r + 1 + P - 1 = r + P := by omega
    rw [h1, Nat.add_div_right r hP]
    exact (Nat.div_lt_iff_lt_mul hP).mp (Nat.lt_succ_self (r / P))

theorem natCeilDiv_le (R P m : Nat) (hP : 0 < P) (h : R ≤ m * P) :
    natCeilDiv R P ≤ m := by
  unfold natCeilDiv
  cases R with
  | zero =>
    rw [Nat.zero_add, Nat.div_eq_of_lt (by omega)]
    omega
  | succ r =>
    have h1 : r + 1 + P - 1 = r + P := by omega
    rw [h1, Nat.add_div_right r hP]
    have := (Nat.div_lt_iff_lt_mul hP).mpr (by omega : r < m * P)
    omega

/-- C7: `paginate` obtains the total by a separate COUNT statement under
the same WHERE parameters as the data statement, reports
`totalPages = ceil(total/perPage)` (characterized as the least `m` with
`total ≤ m * perPage`), `hasNext = (page < totalPages)`,
`hasPrev = (page > 1)`; and a page beyond `totalPages` yields an empty
data array with `hasNext = false`. -/
theorem paginate_reports (ctx : Ctx) (table : String) (page perPage : Nat) (whereC : Row)
    (orderBy : List OrderItem) (s : St) (allRows : List Row)
    (hT : ctx.allowed.contains table = true)
    (hP : 0 < perPage) (hpg : 1 ≤ page)
    (hc : ctx.exec (countSql table (whereC.map Prod.fst)) (whereC.map Prod.snd)
      = ⟨[[("count", .int (Int.ofNat allRows.length))]], 0, 0⟩)
    (hd : ctx.exec (selectSql ctx table
        { whereConds := whereC, orderBy := orderBy, limit := some perPage,
          offset := some ((page - 1) * perPage) }) (whereC.map Prod.snd)
      = ⟨(allRows.drop ((page - 1) * perPage)).take perPage, 0, 0⟩) :
    paginate ctx table page perPage whereC orderBy s
      = (.ok { data := (allRows.drop ((page - 1) * perPage)).take perPage,
               total := allRows.length, page := page, perPage := perPage,
               totalPages := natCeilDiv allRows.length perPage,
               hasNext := decide (page < natCeilDiv allRows.length perPage),
               hasPrev := decide (1 < page) },
         { s with trace := s.trace ++
            [Event.stmt (countSql table (whereC.map Prod.fst)) (whereC.map Prod.snd),
             Event.stmt (selectSql ctx table
               { whereConds := whereC, orderBy := orderBy, limit := some perPage,
                 offset := some ((page - 1) * perPage) }) (whereC.map Prod.snd)] }) ∧
    (allRows.length ≤ natCeilDiv allRows.length perPage * perPage ∧
     ∀ m, allRows.length ≤ m * perPage → natCeilDiv allRows.length perPage ≤ m) ∧
    (natCeilDiv allRows.length perPage < page →
      (allRows.drop ((page - 1) * perPage)).take perPage = [] ∧
      decide (page < natCeilDiv allRows.length perPage) = false) := by
  have hT' : table ∈ ctx.allowed := by simpa using hT
  refine ⟨?_, ⟨natCeilDiv_mul_ge _ _ hP, fun m hm => natCeilDiv_le _ _ m hP hm⟩, ?_⟩
  · simp only [paginate, count, getOne, select, validateTable, query, queryExec,
      execStmt, hc, hd]
    simp [hT', rowGet, jvalToNat, List.lookup]
  · intro hgt
    have hle : natCeilDiv allRows.length perPage ≤ page - 1 := by omega
    have hRle : allRows.length ≤ (page - 1) * perPage :=
      le_trans (natCeilDiv_mul_ge _ _ hP) (Nat.mul_le_mul_right _ hle)
    constructor
    · rw [List.drop_eq_nil_of_le hRle]
      simp
    · simp
      omega

/-- Rows of the table backing the C7 witness. -/
def allRows7 : List Row := [[("id", .int 1)], [("id", .int 2)], [("id", .int 3)]]

/-- A provider that answers the COUNT query with 3 and every other
statement with the matching slice of the three-row table. -/
def ctx7 : Ctx :=
  { allowed := ["users"], useTimestamps := true, enableQueryCache := false,
    cacheExpiry := 60000, enableHooks := true, defLimit := 50, defOffset := 0,
    exec := fun q _ =>
      if q = countSql "users" [] then ⟨[[("count", .int 3)]], 0, 0⟩ else ⟨[], 0, 0⟩,
    beforeInsert := none, afterInsert := false }

/-- C7 witness: 3 rows, 2 per page, requesting page 5 (> totalPages = 2)
returns an empty page with hasNext = false and hasPrev = true. -/
theorem paginate_reports_witness :
    (paginate ctx7 "users" 5 2 [] [] s0).1
      = .ok { data := [], total := 3, page := 5, perPage := 2, totalPages := 2,
              hasNext := false, hasPrev := true } :=
  (congrArg Prod.fst (paginate_reports ctx7 "users" 5 2 [] [] s0 allRows7
    (by decide) (by decide) (by decide) rfl rfl).1).trans rfl

/-! ### C8 -/

/-- C8: `raw(sql, params)` fails with DangerousStatement — leaving the
state untouched, so no statement reaches the provider — whenever the
upper-cased text contains one of DROP, TRUNCATE, DELETE, ALTER, CREATE;
when none occurs it delegates to `query` with the text and parameters
unchanged. -/
theorem raw_dangerous_guard (ctx : Ctx) (sql : String) (params : List JVal) (s : St) :
    (dangerousKeywords.any (fun kw => strIncludes (jsToUpper sql) kw) = true →
      (raw ctx sql params s).2 = s ∧
      ∃ kw ∈ dangerousKeywords,
        (raw ctx sql params s).1 = .error (.dangerousStatement kw)) ∧
    ((∀ kw ∈ dangerousKeywords, strIncludes (jsToUpper sql) kw = false) →
      raw ctx sql params s
        = (.ok (query ctx sql params false s).1, (query ctx sql params false s).2)) := by
  constructor
  · intro hany
    rcases hf : dangerousKeywords.find? (fun kw => strIncludes (jsToUpper sql) kw)
      with _ | kw
    · exfalso
      obtain ⟨kw, hmem, hkw⟩ := List.any_eq_true.mp hany
      have h2 := List.find?_eq_none.mp hf kw hmem
      simp [hkw] at h2
    · refine ⟨?_, kw, List.mem_of_find?_eq_some hf, ?_⟩ <;> simp [raw, hf]
  · intro hnone
    have hf : dangerousKeywords.find? (fun kw => strIncludes (jsToUpper sql) kw) = none :=
      List.find?_eq_none.mpr (fun x hx => by simp [hnone x hx])
    rcases hq : query ctx sql params false s with ⟨rows, s1⟩
    simp [raw, hf, hq]

/-- C8 witness: a SELECT mentioning table `deleted_items` is blocked (its
upper-cased text contains DELETE — the guard is a coarse substring check),
while `SELECT 1` passes through to `query` unchanged. -/
theorem raw_dangerous_guard_witness :
    ((raw ctx0 "SELECT * FROM deleted_items" [] s0).2 = s0 ∧
     ∃ kw ∈ dangerousKeywords,
       (raw ctx0 "SELECT * FROM deleted_items" [] s0).1
         = .error (.dangerousStatement kw)) ∧
    raw ctx0 "SELECT 1" [] s0
      = (.ok (query ctx0 "SELECT 1" [] false s0).1,
         (query ctx0 "SELECT 1" [] false s0).2) :=
  ⟨(raw_dangerous_guard ctx0 "SELECT * FROM deleted_items" [] s0).1 (by decide),
   (raw_dangerous_guard ctx0 "SELECT 1" [] s0).2 (by decide)⟩

/-! ### C9 -/

/-- C9: a query with zero resulting rows makes `getOne` return absence
(`null`), not an error; `findOne` likewise; and `findOneAndUpdate` /
`findOneAndDelete` return absence when no row matches, issuing only their
initial SELECT and no mutating statement. -/
theorem absent_row_yields_null (ctx : Ctx) (s : St) :
    (∀ sql params, (ctx.exec sql params).rows = [] →
      (getOne ctx sql params false s).1 = none) ∧
    (∀ table conds, ctx.allowed.contains table = true →
      (ctx.exec (selectWhereSql table (conds.map Prod.fst) 1 0)
        (conds.map Prod.snd)).rows = [] →
      findOne ctx table conds s
        = (.ok none, { s with trace := s.trace ++
            [Event.stmt (selectWhereSql table (conds.map Prod.fst) 1 0)
              (conds.map Prod.snd)] })) ∧
    (∀ table conds data, ctx.allowed.contains table = true →
      (ctx.exec (selectWhereSql table (conds.map Prod.fst) 1 0)
        (conds.map Prod.snd)).rows = [] →
      findOneAndUpdate ctx table conds data s
        = (.ok none, { s with trace := s.trace ++
            [Event.stmt (selectWhereSql table (conds.map Prod.fst) 1 0)
              (conds.map Prod.snd)] })) ∧
    (∀ table conds soft, ctx.allowed.contains table = true →
      (ctx.exec (selectWhereSql table (conds.map Prod.fst) 1 0)
        (conds.map Prod.snd)).rows = [] →
      findOneAndDelete ctx table conds soft s
        = (.ok none, { s with trace := s.trace ++
            [Event.stmt (selectWhereSql table (conds.map Prod.fst) 1 0)
              (conds.map Prod.snd)] })) := by
  refine ⟨?_, ?_, ?_, ?_⟩
  · intro sql params hexec
    simp [getOne, query, queryExec, execStmt, hexec]
  · intro table conds hT hexec
    have hT' : table ∈ ctx.allowed := by simpa using hT
    simp [findOne, selectWhere, validateTable, hT', query, queryExec, execStmt, hexec]
  · intro table conds data hT hexec
    have hT' : table ∈ ctx.allowed := by simpa using hT
    simp [findOneAndUpdate, findOne, selectWhere, validateTable, hT', query, queryExec,
      execStmt, hexec]
  · intro table conds soft hT hexec
    have hT' : table ∈ ctx.allowed := by simpa using hT
    simp [findOneAndDelete, findOne, selectWhere, validateTable, hT', query, queryExec,
      execStmt, hexec]

/-- C9 witness: on a provider returning no rows, `getOne` and `findOne`
yield null, and `findOneAndUpdate` / `findOneAndDelete` yield null while
issuing exactly one (read-only) statement. -/
theorem absent_row_yields_null_witness :
    (getOne ctx0 "SELECT * FROM `users`" [] false s0).1 = none ∧
    findOne ctx0 "users" [("id", .int 9)] s0
      = (.ok none, { s0 with trace :=
          [Event.stmt (selectWhereSql "users" ["id"] 1 0) [.int 9]] }) ∧
    findOneAndUpdate ctx0 "users" [("id", .int 9)] [("name", .str "x")] s0
      = (.ok none, { s0 with trace :=
          [Event.stmt (selectWhereSql "users" ["id"] 1 0) [.int 9]] }) ∧
    findOneAndDelete ctx0 "users" [("id", .int 9)] false s0
      = (.ok none, { s0 with trace :=
          [Event.stmt (selectWhereSql "users" ["id"] 1 0) [.int 9]] }) :=
  ⟨(absent_row_yields_null ctx0 s0).1 "SELECT * FROM `users`" [] rfl,
   ((absent_row_yields_null ctx0 s0).2.1 "users" [("id", .int 9)]
     (by decide) rfl).trans rfl,
   ((absent_row_yields_null ctx0 s0).2.2.1 "users" [("id", .int 9)] [("name", .str "x")]
     (by decide) rfl).trans rfl,
   ((absent_row_yields_null ctx0 s0).2.2.2 "users" [("id", .int 9)] false
     (by decide) rfl).trans rfl⟩

/-! ### C10 -/

/-- C10: on a whitelisted table, the batch helpers given an empty array
return their trivial result immediately — `undefined` (absence), 0 or the
empty list — and leave the state untouched: zero statements are issued. -/
theorem empty_batch_no_statement (ctx : Ctx) (table : String) (s : St)
    (hT : ctx.allowed.contains table = true) :
    bulkInsert ctx table [] s = (.ok none, s) ∧
    (∀ ck, bulkUpsert ctx table [] ck s = (.ok 0, s)) ∧
    (∀ idf, getByIds ctx table [] idf s = (.ok [], s)) ∧
    (∀ idf, batchUpdate ctx table [] idf s = (.ok 0, s)) ∧
    (∀ soft idf, batchDelete ctx table [] soft idf s = (.ok 0, s)) ∧
    (∀ col, whereIn ctx table col [] s = (.ok [], s)) ∧
    (∀ col, whereNotIn ctx table col [] s = (.ok [], s)) := by
  have hT' : table ∈ ctx.allowed := by simpa using hT
  simp [bulkInsert, bulkUpsert, getByIds, batchUpdate, batchDelete, whereIn,
    whereNotIn, validateTable, hT']

/-- C10 witness: each empty-input helper on the whitelisted `users` table
of the concrete instance returns its trivial result with the state
untouched. -/
theorem empty_batch_no_statement_witness :
    bulkInsert ctx0 "users" [] s0 = (.ok none, s0) ∧
    bulkUpsert ctx0 "users" [] ["id"] s0 = (.ok 0, s0) ∧
    getByIds ctx0 "users" [] "id" s0 = (.ok [], s0) ∧
    batchUpdate ctx0 "users" [] "id" s0 = (.ok 0, s0) ∧
    batchDelete ctx0 "users" [] false "id" s0 = (.ok 0, s0) ∧
    whereIn ctx0 "users" "id" [] s0 = (.ok [], s0) ∧
    whereNotIn ctx0 "users" "id" [] s0 = (.ok [], s0) :=
  ⟨(empty_batch_no_statement ctx0 "users" s0 (by decide)).1,
   (empty_batch_no_statement ctx0 "users" s0 (by decide)).2.1 ["id"],
   (empty_batch_no_statement ctx0 "users" s0 (by decide)).2.2.1 "id",
   (empty_batch_no_statement ctx0 "users" s0 (by decide)).2.2.2.1 "id",
   (empty_batch_no_statement ctx0 "users" s0 (by decide)).2.2.2.2.1 false "id",
   (empty_batch_no_statement ctx0 "users" s0 (by decide)).2.2.2.2.2.1 "id",
   (empty_batch_no_statement ctx0 "users" s0 (by decide)).2.2.2.2.2.2 "id"⟩

end M2H
